import Mathlib

/-!
Verification of the network-automation configuration toolchain
(`scripts/config_validator.py`, `scripts/config_generator.py`,
`scripts/config_deployer.py`) against its natural-language specification.

The Python code is shallowly embedded:

* the "typed" layer models the YAML device document as Lean structures whose
  optional scalar fields are `Option String` (a key that is absent maps to
  `none`; Python truthiness of a retrieved value is `none`/`some ""` ↦ false);
* the "dynamic" layer (`PyVal`) models raw YAML values (None, bools, ints,
  strings, lists, string-keyed dicts) together with the Python operations the
  scripts use (`dict.get`, subscript, `in`, truthiness, `str()` conversion,
  iteration), each returning `Except String` so that a raised `TypeError` /
  `AttributeError` / `KeyError` is visible as data.

The regular expression `^(\d{1,3}\.){3}\d{1,3}$` used by
`ConfigValidator.validate_ip_address` is embedded as a deterministic
character-level matcher: each group `\d{1,3}\.` can only consume the maximal
run of leading digits, because the character after the consumed digits must
be a literal dot, which is not a digit.  Two points of Python `re`/`int`
semantics are modelled explicitly: `$` (without `re.MULTILINE`) matches at
the end of the string *or just before one newline at the very end*, so
`'1.2.3.4\n'` is accepted by the source and by this embedding; and `int()`
strips surrounding whitespace, so the trailing-newline part `'4\n'` parses
as 4.  The embedding restricts `\d` to the ASCII digits `0`-`9`: Python's
`\d` additionally matches non-ASCII Unicode decimal digits (category Nd),
which `int()` also parses, so the model is faithful on ASCII strings and the
acceptance-characterization theorem for the IP check is stated for ASCII
inputs only.
-/

/-! ## Character-level embedding of the IP-address regex and `str.split('.')` -/

/-- Python `s.split('.')` on the character list of `s`:
splitting on every dot, keeping empty chunks (`''.split('.') == ['']`). -/
def splitDots : List Char → List (List Char)
  | [] => [[]]
  | c :: cs =>
    if c = '.' then [] :: splitDots cs
    else
      match splitDots cs with
      | [] => [[c]]
      | p :: ps => (c :: p) :: ps

/-- The value of a string of decimal digits. -/
def natOfDigits (ds : List Char) : Nat :=
  ds.foldl (fun n c => 10 * n + (c.toNat - 48)) 0

/-- Python `int(part)`: surrounding whitespace is stripped, then the decimal
digits are read.  The only inputs reaching it in
`ConfigValidator.validate_ip_address` (guarded by the regex) are one to
three ASCII digits, possibly followed by the string's single trailing
newline, so whitespace-stripping plus `natOfDigits` is exact there. -/
def pyInt (ds : List Char) : Nat :=
  natOfDigits (((ds.dropWhile Char.isWhitespace).reverse.dropWhile
    Char.isWhitespace).reverse)

/-- One regex group `\d{1,3}\.`: consume one to three digits followed by a
literal dot, returning the rest of the input.  The digit run consumed is
necessarily the maximal run of leading digits (the next character must be a
dot, which is not a digit), so the match is deterministic. -/
def re_group (cs : List Char) : Option (List Char) :=
  if 1 ≤ (cs.takeWhile Char.isDigit).length ∧ (cs.takeWhile Char.isDigit).length ≤ 3 then
    match cs.drop (cs.takeWhile Char.isDigit).length with
    | '.' :: rest => some rest
    | _ => none
  else none

/-- The regex body `(\d{1,3}\.){3}\d{1,3}` required to consume the whole
given character list. -/
def re_body (cs : List Char) : Bool :=
  match re_group cs with
  | none => false
  | some r1 =>
    match re_group r1 with
    | none => false
    | some r2 =>
      match re_group r2 with
      | none => false
      | some r3 =>
        let ds := r3.takeWhile Char.isDigit
        decide (1 ≤ ds.length ∧ ds.length ≤ 3) && decide (r3.drop ds.length = [])

/-- `re.match(r'^(\d{1,3}\.){3}\d{1,3}$', ip)`: `re.match` anchors at the
start, and `$` (no `re.MULTILINE`) matches at the end of the string or just
before one newline at the very end, so the body must consume either the
whole string or the whole string minus a single final newline.  `\d` is
modelled as an ASCII digit; Python's `\d` also matches non-ASCII Unicode
decimal digits (category Nd), which this embedding does not cover, so it is
faithful on ASCII strings. -/
def re_match (s : String) : Bool :=
  re_body s.data ||
  (s.data.getLast? == some '\n' && re_body s.data.dropLast)

/-- `ConfigValidator.validate_ip_address`: reject unless the regex
`^(\d{1,3}\.){3}\d{1,3}$` matches, then require
`all(0 <= int(part) <= 255 for part in ip.split('.'))`
(the lower bound is vacuous over `Nat`). -/
def validate_ip_address (ip : String) : Bool :=
  if !re_match ip then false
  else (splitDots ip.data).all (fun part => pyInt part ≤ 255)

/-- `ConfigValidator.validate_subnet_mask` delegates to the IP check. -/
def validate_subnet_mask (mask : String) : Bool :=
  validate_ip_address mask

example : validate_ip_address "192.168.1.1" = true := by decide
example : validate_ip_address "999.999.999.999" = false := by decide
example : validate_ip_address "0255.0.0.0" = false := by decide
example : validate_ip_address "10.0.0" = false := by decide
example : validate_ip_address "1.2.3.4\n" = true := by decide
example : validate_ip_address "1.2.3.4\n\n" = false := by decide
example : validate_ip_address "1.2.3.4\nx" = false := by decide
example : validate_ip_address "1.2.3.999\n" = false := by decide

/-! ## Typed device model

Structures mirroring the YAML document shape read by the scripts.  Every
scalar field the scripts retrieve with `dict.get` is an `Option String`
(absent key ↦ `none`); an OSPF `area` is an `Option Int` because the code
distinguishes `area is None` from falsiness (`area` may be the integer `0`).
The `routing.ospf` and `security.access_lists` wrappers are collapsed into
the root record: an absent wrapper behaves exactly like the collapsed
default (`enabled` false / empty list). -/

structure InterfaceSpec where
  name : Option String
  description : Option String
  status : Option String
  ip_address : Option String
  subnet_mask : Option String
deriving DecidableEq, Repr

structure NetworkEntry where
  network : Option String
  wildcard : Option String
  area : Option Int
deriving DecidableEq, Repr

structure OspfSpec where
  enabled : Bool
  process_id : Option String
  networks : List NetworkEntry
deriving DecidableEq, Repr

structure AclRule where
  action : Option String
  protocol : Option String
  source : Option String
  source_wildcard : Option String
  destination : Option String
  destination_port : Option String
deriving DecidableEq, Repr

structure AclSpec where
  name : Option String
  type : Option String
  rules : List AclRule
deriving DecidableEq, Repr

structure DeviceInfo where
  hostname : Option String
  ip_address : Option String
  device_type : Option String
deriving DecidableEq, Repr

structure DeviceModel where
  device : DeviceInfo
  interfaces : List InterfaceSpec
  ospf : OspfSpec
  access_lists : List AclSpec
deriving DecidableEq, Repr

/-- Python truthiness of a `dict.get(key)` result when the value, if present,
is a string: `None` and `''` are falsy. -/
def truthy (o : Option String) : Bool :=
  !(o.getD "" == "")

/-- Python `f"{d.get(key)}"` for a string-or-absent value: an absent key
formats as `None`. -/
def pyOptStr (o : Option String) : String :=
  o.getD "None"

/-! ## Typed embedding of `ConfigValidator`

Each `validate_*` method appends to `self.errors` / `self.warnings`; the
embedding returns the (errors, warnings) pair contributed by each method, in
append order, and `validate_all` concatenates them in call order. -/

/-- `ConfigValidator.validate_device_info`. -/
def validate_device_info (d : DeviceInfo) : List String × List String :=
  let hostnameErrs := if !truthy d.hostname then ["Device hostname is required"] else []
  let ipErrs :=
    if !truthy d.ip_address then ["Device IP address is required"]
    else if !validate_ip_address (d.ip_address.getD "")
    then ["Invalid IP address: " ++ d.ip_address.getD ""]
    else []
  let warns := if !truthy d.device_type
    then ["Device type not specified, defaulting to cisco_ios"] else []
  (hostnameErrs ++ ipErrs, warns)

/-- The body of the `for idx, interface in enumerate(interfaces)` loop of
`ConfigValidator.validate_interfaces`: the errors contributed for the
interface at index `idx`. -/
def interface_findings (idx : Nat) (i : InterfaceSpec) : List String :=
  let label := match i.name with
    | some s => s
    | none => toString idx
  (if !truthy i.name then ["Interface " ++ toString idx ++ ": name is required"] else []) ++
  (if !truthy i.description then ["Interface " ++ label ++ ": description is required"] else []) ++
  (if !truthy i.status then ["Interface " ++ label ++ ": status is required"] else []) ++
  (match i.ip_address with
   | none => []
   | some ip =>
     (if !validate_ip_address ip
      then ["Interface " ++ label ++ ": Invalid IP address " ++ ip] else []) ++
     (match i.subnet_mask with
      | none => ["Interface " ++ label ++ ": Subnet mask required when IP is configured"]
      | some mask =>
        if !validate_subnet_mask mask
        then ["Interface " ++ label ++ ": Invalid subnet mask"] else []))

/-- The enumerated interface loop of `ConfigValidator.validate_interfaces`. -/
def interfaces_check : Nat → List InterfaceSpec → List String
  | _, [] => []
  | idx, i :: rest => interface_findings idx i ++ interfaces_check (idx + 1) rest

/-- `ConfigValidator.validate_interfaces`. -/
def validate_interfaces (ifs : List InterfaceSpec) : List String × List String :=
  if ifs.isEmpty then ([], ["No interfaces configured"])
  else (interfaces_check 0 ifs, [])

/-- The body of the `for idx, network in enumerate(networks)` loop of
`ConfigValidator.validate_routing`: `network` and `wildcard` are fetched with
default `''`, `area` is compared against `None`. -/
def network_findings (idx : Nat) (e : NetworkEntry) : List String :=
  (if !validate_ip_address (e.network.getD "")
   then ["OSPF network " ++ toString idx ++ ": Invalid network address"] else []) ++
  (if !validate_ip_address (e.wildcard.getD "")
   then ["OSPF network " ++ toString idx ++ ": Invalid wildcard mask"] else []) ++
  (if e.area.isNone
   then ["OSPF network " ++ toString idx ++ ": Area is required"] else [])

/-- The enumerated network loop of `ConfigValidator.validate_routing`. -/
def networks_check : Nat → List NetworkEntry → List String
  | _, [] => []
  | idx, e :: rest => network_findings idx e ++ networks_check (idx + 1) rest

/-- `ConfigValidator.validate_routing`. -/
def validate_routing (o : OspfSpec) : List String × List String :=
  if o.enabled then
    ((if !truthy o.process_id
      then ["OSPF process ID is required when OSPF is enabled"] else []) ++
     networks_check 0 o.networks,
     if o.networks.isEmpty then ["OSPF enabled but no networks configured"] else [])
  else ([], [])

/-- The body of the rule loop of `ConfigValidator.validate_security`:
(errors, warnings) contributed by one rule of the ACL labelled `label`. -/
def rule_findings (label : String) (r : AclRule) : List String × List String :=
  ((if !(r.action == some "permit" || r.action == some "deny")
    then ["ACL " ++ label ++ ": Rule action must be \x27permit\x27 or \x27deny\x27"] else []) ++
   (if !truthy r.protocol
    then ["ACL " ++ label ++ ": Rule protocol is required"] else []) ++
   (if !truthy r.source
    then ["ACL " ++ label ++ ": Rule source is required"] else []),
   if truthy r.protocol &&
      !(r.protocol == some "tcp" || r.protocol == some "udp" ||
        r.protocol == some "ip" || r.protocol == some "icmp")
   then ["ACL " ++ label ++ ": Uncommon protocol " ++ pyOptStr r.protocol] else [])

/-- The rule loop of `ConfigValidator.validate_security` over one ACL. -/
def rules_check (label : String) : List AclRule → List String × List String
  | [] => ([], [])
  | r :: rest =>
    let f := rule_findings label r
    let fs := rules_check label rest
    (f.1 ++ fs.1, f.2 ++ fs.2)

/-- The errors and warnings contributed by one ACL in
`ConfigValidator.validate_security`: the message label is
`f"{acl.get('name')}"`, i.e. `None` when the name is absent. -/
def acl_findings (acl : AclSpec) : List String × List String :=
  let label := pyOptStr acl.name
  let rf := rules_check label acl.rules
  ((if !truthy acl.name then ["ACL name is required"] else []) ++
   (if !(acl.type == some "standard" || acl.type == some "extended")
    then ["ACL " ++ label ++ ": Type must be \x27standard\x27 or \x27extended\x27"] else []) ++
   rf.1,
   rf.2)

/-- The ACL loop of `ConfigValidator.validate_security`. -/
def acls_check : List AclSpec → List String × List String
  | [] => ([], [])
  | acl :: rest =>
    let f := acl_findings acl
    let fs := acls_check rest
    (f.1 ++ fs.1, f.2 ++ fs.2)

/-- `ConfigValidator.validate_security`. -/
def validate_security (acls : List AclSpec) : List String × List String :=
  acls_check acls

/-- `ConfigValidator.validate_all`: run the four checks in order; errors and
warnings accumulate in call order. -/
def validate_all (m : DeviceModel) : List String × List String :=
  let r1 := validate_device_info m.device
  let r2 := validate_interfaces m.interfaces
  let r3 := validate_routing m.ospf
  let r4 := validate_security m.access_lists
  (r1.1 ++ r2.1 ++ r3.1 ++ r4.1, r1.2 ++ r2.2 ++ r3.2 ++ r4.2)

/-- `ConfigValidator.is_valid`: `len(self.errors) == 0`. -/
def is_valid (m : DeviceModel) : Bool :=
  (validate_all m).1.isEmpty

/-! ## Typed embedding of `ConfigGenerator`

Each `generate_*` method builds a `commands` list and joins it with
newlines; the loops are embedded as structural recursions appending exactly
the lines the Python loop bodies append. -/

/-- `ConfigGenerator.generate_hostname`: the hostname is fetched with default
`'default-hostname'` (key-absence default, an empty string is kept). -/
def generate_hostname (m : DeviceModel) : String :=
  "hostname " ++ m.device.hostname.getD "default-hostname" ++ "\n"

/-- The `for interface in ...` loop of `ConfigGenerator.generate_interfaces`:
an interface whose `name` is falsy is skipped whole; the `ip address` line is
emitted only when both `ip_address` and `subnet_mask` keys are present. -/
def interfaces_gen : List InterfaceSpec → List String
  | [] => []
  | i :: rest =>
    if !truthy i.name then interfaces_gen rest
    else
      let name := i.name.getD ""
      ("interface " ++ name) ::
      (" description " ++ i.description.getD ("Interface " ++ name)) ::
      (if i.status.getD "down" == "up" then " no shutdown" else " shutdown") ::
      ((match i.ip_address, i.subnet_mask with
        | some ip, some mask => [" ip address " ++ ip ++ " " ++ mask]
        | _, _ => []) ++
       ("!" :: interfaces_gen rest))

/-- `ConfigGenerator.generate_interfaces`: `"\n".join(commands) + "\n"`. -/
def generate_interfaces (m : DeviceModel) : String :=
  String.intercalate "\n" (interfaces_gen m.interfaces) ++ "\n"

/-- The network loop of `ConfigGenerator.generate_ospf`: a line is emitted
only when `network` and `wildcard` are truthy and `area is not None`. -/
def networks_gen : List NetworkEntry → List String
  | [] => []
  | e :: rest =>
    (if truthy e.network && truthy e.wildcard && e.area.isSome then
      [" network " ++ e.network.getD "" ++ " " ++ e.wildcard.getD "" ++
       " area " ++ toString (e.area.getD 0)]
     else []) ++ networks_gen rest

/-- The `commands` list built by `ConfigGenerator.generate_ospf`: empty when
OSPF is not enabled, and empty (early `return ""`) when `process_id` is
falsy. -/
def ospf_commands (m : DeviceModel) : List String :=
  if m.ospf.enabled then
    if !truthy m.ospf.process_id then []
    else ("router ospf " ++ m.ospf.process_id.getD "") ::
         (networks_gen m.ospf.networks ++ ["!"])
  else []

/-- `ConfigGenerator.generate_ospf`:
`"\n".join(commands) + "\n" if commands else ""`. -/
def generate_ospf (m : DeviceModel) : String :=
  let commands := ospf_commands m
  if commands.isEmpty then "" else String.intercalate "\n" commands ++ "\n"

/-- The rule loop of `ConfigGenerator.generate_acl` for the ACL named
`acl_name` of type `acl_type`: a rule missing any of `action`, `protocol`,
`source` (by truthiness) is skipped; only `extended`-type ACLs emit lines;
`source_wildcard` defaults to `'0.0.0.0'` and `destination` to `'any'`
(key-absence defaults); `eq <port>` is appended when the port is truthy. -/
def rules_gen (acl_name : String) (acl_type : String) : List AclRule → List String
  | [] => []
  | r :: rest =>
    (if truthy r.action && truthy r.protocol && truthy r.source then
      (if acl_type == "extended" then
        ["access-list " ++ acl_name ++ " " ++ r.action.getD "" ++ " " ++
         r.protocol.getD "" ++ " " ++ r.source.getD "" ++ " " ++
         r.source_wildcard.getD "0.0.0.0" ++ " " ++ r.destination.getD "any" ++
         (if truthy r.destination_port then " eq " ++ r.destination_port.getD "" else "")]
       else [])
     else []) ++ rules_gen acl_name acl_type rest

/-- The ACL loop of `ConfigGenerator.generate_acl`: an ACL missing `name` or
`type` (by truthiness) is skipped whole. -/
def acls_gen : List AclSpec → List String
  | [] => []
  | acl :: rest =>
    (if !truthy acl.name || !truthy acl.type then []
     else rules_gen (acl.name.getD "") (acl.type.getD "") acl.rules) ++ acls_gen rest

/-- `ConfigGenerator.generate_acl`:
`"\n".join(commands) + "\n" if commands else ""`. -/
def generate_acl (m : DeviceModel) : String :=
  let commands := acls_gen m.access_lists
  if commands.isEmpty then "" else String.intercalate "\n" commands ++ "\n"

/-- `ConfigGenerator.generate_full_config`: header comments (hostname
defaulting to `'Unknown-Device'`), the four sections in fixed order, and a
terminal `end`, joined with newlines. -/
def generate_full_config (m : DeviceModel) : String :=
  String.intercalate "\n"
    ["! Generated Configuration",
     "! Device: " ++ m.device.hostname.getD "Unknown-Device",
     "!",
     generate_hostname m,
     generate_interfaces m,
     generate_ospf m,
     generate_acl m,
     "end"]

/-! ## Embedding of `ConfigDeployer.connect_to_device`

Only the construction of the connection parameters is modelled; the actual
Netmiko session is an external collaborator.  The environment is a partial
map (`os.getenv name default` returns the default only when the variable is
unset), and the device record mirrors the keys accessed with `[]`, which the
code assumes present. -/

structure Credentials where
  username : String
  password : String
deriving DecidableEq, Repr

structure DeployDevice where
  device_type : String
  ip_address : String
  hostname : String
  credentials : Credentials
deriving DecidableEq, Repr

structure DeviceParams where
  device_type : String
  host : String
  username : String
  password : String
  secret : String
deriving DecidableEq, Repr

/-- `os.getenv(name, default)`. -/
def getenv (env : String → Option String) (name default : String) : String :=
  (env name).getD default

/-- The `device_params` dict built by `ConfigDeployer.connect_to_device`:
username and password fall back to `device['credentials']`, while the enable
secret falls back to the literal `''`. -/
def connect_params (env : String → Option String) (d : DeployDevice) : DeviceParams :=
  { device_type := d.device_type
  , host := d.ip_address
  , username := getenv env "NETWORK_USERNAME" d.credentials.username
  , password := getenv env "NETWORK_PASSWORD" d.credentials.password
  , secret := getenv env "NETWORK_ENABLE_PASSWORD" "" }

/-- Modelled from the spec: §6 states "credential resolution order is
environment override first, then value embedded in the device model, for
username/password/enable-secret".  The device model in the source has no
embedded enable secret, so the spec-described resolution needs one as an
extra input; it is compared against `connect_params` (the source). -/
def connect_params_spec (env : String → Option String) (d : DeployDevice)
    (model_enable_secret : String) : DeviceParams :=
  { device_type := d.device_type
  , host := d.ip_address
  , username := getenv env "NETWORK_USERNAME" d.credentials.username
  , password := getenv env "NETWORK_PASSWORD" d.credentials.password
  , secret := getenv env "NETWORK_ENABLE_PASSWORD" model_enable_secret }

/-! ## Helper lemmas: string shapes -/

lemma append_ne_append_of_incomparable (p q a b : String)
    (h1 : ¬ p.data <+: q.data) (h2 : ¬ q.data <+: p.data) :
    p ++ a ≠ q ++ b := by
  intro he
  have hd : p.data ++ a.data = q.data ++ b.data := by
    rw [← String.data_append, ← String.data_append, he]
  have hp : p.data <+: q.data ++ b.data := hd ▸ List.prefix_append p.data a.data
  have hq : q.data <+: q.data ++ b.data := List.prefix_append q.data b.data
  rcases List.prefix_or_prefix_of_prefix hp hq with h | h
  · exact h1 h
  · exact h2 h

lemma const_ne_append (c q b : String) (h : ¬ q.data <+: c.data) : c ≠ q ++ b := by
  intro he
  apply h
  rw [he, String.data_append]
  exact List.prefix_append q.data b.data

lemma mem_ite_nil {c : Prop} [Decidable c] {α : Type} {l : List α} {x : α}
    (h : x ∈ (if c then l else [])) : x ∈ l := by
  split at h
  · exact h
  · cases h

/-! ## Helper lemmas: the regex matcher and `splitDots` -/

lemma takeWhile_append_not (p : Char → Bool) (ds : List Char) (x : Char) (rest : List Char)
    (hds : ds.all p) (hx : p x = false) :
    (ds ++ x :: rest).takeWhile p = ds := by
  induction ds with
  | nil => simp [List.takeWhile_cons, hx]
  | cons d ds ih =>
    simp only [List.all_cons, Bool.and_eq_true] at hds
    simp [List.takeWhile_cons, hds.1, ih hds.2]

lemma takeWhile_of_all (p : Char → Bool) (l : List Char) (h : l.all p) :
    l.takeWhile p = l := by
  induction l with
  | nil => rfl
  | cons c cs ih =>
    simp only [List.all_cons, Bool.and_eq_true] at h
    simp [List.takeWhile_cons, h.1, ih h.2]

lemma re_group_eq_some {cs rest : List Char} :
    re_group cs = some rest ↔
    ∃ ds, ds.all Char.isDigit ∧ 1 ≤ ds.length ∧ ds.length ≤ 3 ∧
      cs = ds ++ '.' :: rest := by
  constructor
  · intro h
    unfold re_group at h
    split at h
    case isTrue hlen =>
      obtain ⟨t, ht⟩ := cs.takeWhile_prefix (p := Char.isDigit)
      have hdrop : cs.drop (cs.takeWhile Char.isDigit).length = t := by
        have h0 : ((cs.takeWhile Char.isDigit) ++ t).drop
            (cs.takeWhile Char.isDigit).length = t := List.drop_left _ _
        rw [ht] at h0
        exact h0
      rw [hdrop] at h
      split at h
      next r hx =>
        simp only [Option.some.injEq] at h
        refine ⟨cs.takeWhile Char.isDigit, ?_, hlen.1, hlen.2, ?_⟩
        · exact List.all_eq_true.mpr fun a ha => List.mem_takeWhile_imp ha
        · conv_lhs => rw [← ht]
          rw [h]
      next => cases h
    case isFalse => cases h
  · rintro ⟨ds, hall, h1, h3, rfl⟩
    unfold re_group
    rw [takeWhile_append_not Char.isDigit ds '.' rest hall (by decide)]
    rw [if_pos ⟨h1, h3⟩, List.drop_left]
    rfl

lemma splitDots_ne_nil (cs : List Char) : splitDots cs ≠ [] := by
  induction cs with
  | nil => simp [splitDots]
  | cons c cs ih =>
    unfold splitDots
    split
    · simp
    · split
      · simp
      · simp

lemma splitDots_append_dot (ds rest : List Char) (h : ds.all Char.isDigit) :
    splitDots (ds ++ '.' :: rest) = ds :: splitDots rest := by
  induction ds with
  | nil => simp [splitDots]
  | cons d ds ih =>
    simp only [List.all_cons, Bool.and_eq_true] at h
    have hd : ¬ d = '.' := by
      intro he
      rw [he] at h
      simp at h
    rw [List.cons_append]
    simp only [splitDots]
    rw [if_neg hd, ih h.2]

lemma splitDots_all_digits (l : List Char) (h : l.all Char.isDigit) :
    splitDots l = [l] := by
  induction l with
  | nil => rfl
  | cons c cs ih =>
    simp only [List.all_cons, Bool.and_eq_true] at h
    have hc : ¬ c = '.' := by
      intro he
      rw [he] at h
      simp at h
    unfold splitDots
    rw [if_neg hc, ih h.2]

/-- Inverse of `splitDots`: rejoin the chunks with dots. -/
def joinDots : List (List Char) → List Char
  | [] => []
  | [p] => p
  | p :: ps => p ++ '.' :: joinDots ps

lemma joinDots_cons (x : List Char) (ps : List (List Char)) (h : ps ≠ []) :
    joinDots (x :: ps) = x ++ '.' :: joinDots ps := by
  cases ps with
  | nil => exact absurd rfl h
  | cons q ps => rfl

/-- One group of the anchored regex: one to three decimal digits. -/
def octet_ok (p : List Char) : Prop :=
  1 ≤ p.length ∧ p.length ≤ 3 ∧ p.all Char.isDigit = true

lemma joinDots_splitDots (cs : List Char) : joinDots (splitDots cs) = cs := by
  induction cs with
  | nil => rfl
  | cons c cs ih =>
    by_cases hc : c = '.'
    · subst hc
      unfold splitDots
      rw [if_pos rfl, joinDots_cons _ _ (splitDots_ne_nil cs), ih]
      rfl
    · unfold splitDots
      rw [if_neg hc]
      rcases heq : splitDots cs with _ | ⟨p, ps⟩
      · exact absurd heq (splitDots_ne_nil cs)
      · rcases ps with _ | ⟨q, ps⟩
        · have : joinDots [p] = cs := by rw [← heq, ih]
          simp only [joinDots] at this ⊢
          rw [this]
        · have : joinDots (p :: q :: ps) = cs := by rw [← heq, ih]
          rw [joinDots_cons _ _ (by simp)] at this
          rw [joinDots_cons _ _ (by simp), ← this]
          rfl

lemma splitDots_no_dot (l : List Char) (h : '.' ∉ l) : splitDots l = [l] := by
  induction l with
  | nil => rfl
  | cons c cs ih =>
    have hc : ¬ c = '.' := by
      intro he
      subst he
      exact h (List.mem_cons_self _ _)
    unfold splitDots
    rw [if_neg hc, ih (fun hm => h (List.mem_cons_of_mem _ hm))]

lemma no_dot_of_digits (l : List Char) (h : l.all Char.isDigit = true) : '.' ∉ l := by
  intro hm
  exact absurd (List.all_eq_true.mp h _ hm) (by decide)

lemma splitDots_quad (d1 d2 d3 tail : List Char)
    (h1 : d1.all Char.isDigit = true) (h2 : d2.all Char.isDigit = true)
    (h3 : d3.all Char.isDigit = true) (ht : '.' ∉ tail) :
    splitDots (d1 ++ '.' :: (d2 ++ '.' :: (d3 ++ '.' :: tail))) =
      [d1, d2, d3, tail] := by
  rw [splitDots_append_dot _ _ h1, splitDots_append_dot _ _ h2,
    splitDots_append_dot _ _ h3, splitDots_no_dot _ ht]

/-- Structural characterization of the regex body: it accepts exactly the
decompositions into four digit groups of one to three digits separated by
literal dots. -/
lemma re_body_decomp {cs : List Char} :
    re_body cs = true ↔
    ∃ d1 d2 d3 d4, octet_ok d1 ∧ octet_ok d2 ∧ octet_ok d3 ∧ octet_ok d4 ∧
      cs = d1 ++ '.' :: (d2 ++ '.' :: (d3 ++ '.' :: d4)) := by
  constructor
  · intro h
    unfold re_body at h
    rcases h1 : re_group cs with _ | r1
    · simp [h1] at h
    simp only [h1] at h
    rcases h2 : re_group r1 with _ | r2
    · simp [h2] at h
    simp only [h2] at h
    rcases h3 : re_group r2 with _ | r3
    · simp [h3] at h
    simp only [h3, Bool.and_eq_true, decide_eq_true_eq] at h
    obtain ⟨⟨hl1, hl3⟩, hdrop⟩ := h
    obtain ⟨d1, ha1, hb1, hc1, he1⟩ := re_group_eq_some.mp h1
    obtain ⟨d2, ha2, hb2, hc2, he2⟩ := re_group_eq_some.mp h2
    obtain ⟨d3, ha3, hb3, hc3, he3⟩ := re_group_eq_some.mp h3
    obtain ⟨t, ht⟩ := r3.takeWhile_prefix (p := Char.isDigit)
    have htnil : t = [] := by
      have h0 : ((r3.takeWhile Char.isDigit) ++ t).drop
          (r3.takeWhile Char.isDigit).length = t := List.drop_left _ _
      rw [ht] at h0
      rw [← h0, hdrop]
    have hr3 : r3.takeWhile Char.isDigit = r3 := by
      rw [htnil, List.append_nil] at ht
      exact ht
    have ha4 : r3.all Char.isDigit = true := by
      rw [← hr3]
      exact List.all_eq_true.mpr fun a ha => List.mem_takeWhile_imp ha
    rw [hr3] at hl1 hl3
    exact ⟨d1, d2, d3, r3, ⟨hb1, hc1, ha1⟩, ⟨hb2, hc2, ha2⟩, ⟨hb3, hc3, ha3⟩,
      ⟨hl1, hl3, ha4⟩, by rw [he1, he2, he3]⟩
  · rintro ⟨d1, d2, d3, d4, o1, o2, o3, o4, rfl⟩
    have hA : re_group (d1 ++ '.' :: (d2 ++ '.' :: (d3 ++ '.' :: d4))) =
        some (d2 ++ '.' :: (d3 ++ '.' :: d4)) :=
      re_group_eq_some.mpr ⟨d1, o1.2.2, o1.1, o1.2.1, rfl⟩
    have hB : re_group (d2 ++ '.' :: (d3 ++ '.' :: d4)) = some (d3 ++ '.' :: d4) :=
      re_group_eq_some.mpr ⟨d2, o2.2.2, o2.1, o2.2.1, rfl⟩
    have hC : re_group (d3 ++ '.' :: d4) = some d4 :=
      re_group_eq_some.mpr ⟨d3, o3.2.2, o3.1, o3.2.1, rfl⟩
    unfold re_body
    simp only [hA, hB, hC, takeWhile_of_all _ _ o4.2.2, List.drop_length,
      Bool.and_eq_true, decide_eq_true_eq]
    exact ⟨⟨o4.1, o4.2.1⟩, trivial⟩

lemma not_ws_of_digit (c : Char) (h : c.isDigit = true) : c.isWhitespace = false := by
  rcases hw : c.isWhitespace with _ | _
  · rfl
  · exfalso
    simp only [Char.isWhitespace, Bool.or_eq_true, decide_eq_true_eq] at hw
    rcases hw with ((rfl | rfl) | rfl) | rfl <;> exact absurd h (by decide)

lemma dropWhile_ws_of_digits (p : List Char) (h : p.all Char.isDigit = true) :
    p.dropWhile Char.isWhitespace = p := by
  cases p with
  | nil => rfl
  | cons c cs =>
    simp only [List.all_cons, Bool.and_eq_true] at h
    rw [List.dropWhile_cons, not_ws_of_digit c h.1]
    simp

/-- On a pure digit string, `int()` is just the digit value. -/
lemma pyInt_digits (p : List Char) (h : p.all Char.isDigit = true) :
    pyInt p = natOfDigits p := by
  unfold pyInt
  rw [dropWhile_ws_of_digits p h]
  rw [dropWhile_ws_of_digits p.reverse (by rw [List.all_reverse]; exact h)]
  rw [List.reverse_reverse]

/-- On a digit string followed by the trailing newline, `int()` strips the
newline and reads the digit value. -/
lemma pyInt_digits_newline (p : List Char) (h : p.all Char.isDigit = true) :
    pyInt (p ++ ['\n']) = natOfDigits p := by
  unfold pyInt
  cases p with
  | nil => rfl
  | cons c cs =>
    have hall : (c :: cs).all Char.isDigit = true := h
    simp only [List.all_cons, Bool.and_eq_true] at h
    rw [List.cons_append, List.dropWhile_cons, not_ws_of_digit c h.1]
    simp only [Bool.false_eq_true, if_false]
    rw [show (c :: (cs ++ ['\n'])).reverse = '\n' :: (c :: cs).reverse by simp]
    rw [List.dropWhile_cons]
    simp only [show ('\n').isWhitespace = true from rfl, if_true]
    rw [dropWhile_ws_of_digits (c :: cs).reverse (by rw [List.all_reverse]; exact hall)]
    rw [List.reverse_reverse]

/-- The dotted-quad pattern the IP check decides on the matched span: four
dot-separated groups of one to three decimal digits, each of value at most
255 (the amended form of the §8 pattern, which adds the three-digit
bound). -/
def dotted_quad_core (cs : List Char) : Prop :=
  (splitDots cs).length = 4 ∧
  ∀ p ∈ splitDots cs,
    1 ≤ p.length ∧ p.length ≤ 3 ∧ p.all Char.isDigit = true ∧ natOfDigits p ≤ 255

/-- The claim's literal pattern: four dot-separated decimal tokens, each
with integer value in `[0, 255]`, with no bound on the number of digits. -/
def claim_ip_tokens (s : String) : Bool :=
  (splitDots s.data).length == 4 &&
  (splitDots s.data).all (fun p => !p.isEmpty && p.all Char.isDigit && natOfDigits p ≤ 255)

lemma dotted_quad_core_iff_decomp (cs : List Char) :
    dotted_quad_core cs ↔
    ∃ d1 d2 d3 d4,
      (octet_ok d1 ∧ natOfDigits d1 ≤ 255) ∧ (octet_ok d2 ∧ natOfDigits d2 ≤ 255) ∧
      (octet_ok d3 ∧ natOfDigits d3 ≤ 255) ∧ (octet_ok d4 ∧ natOfDigits d4 ≤ 255) ∧
      cs = d1 ++ '.' :: (d2 ++ '.' :: (d3 ++ '.' :: d4)) := by
  constructor
  · rintro ⟨hlen, hall⟩
    rcases hsp : splitDots cs with _ | ⟨p1, l1⟩
    · exact absurd hsp (splitDots_ne_nil _)
    rcases l1 with _ | ⟨p2, l2⟩
    · rw [hsp] at hlen; simp at hlen
    rcases l2 with _ | ⟨p3, l3⟩
    · rw [hsp] at hlen; simp at hlen
    rcases l3 with _ | ⟨p4, l4⟩
    · rw [hsp] at hlen; simp at hlen
    have hl4 : l4 = [] := by
      rw [hsp] at hlen
      simp only [List.length_cons] at hlen
      exact List.length_eq_zero.mp (by omega)
    subst hl4
    have o1 := hall p1 (by rw [hsp]; simp)
    have o2 := hall p2 (by rw [hsp]; simp)
    have o3 := hall p3 (by rw [hsp]; simp)
    have o4 := hall p4 (by rw [hsp]; simp)
    refine ⟨p1, p2, p3, p4, ⟨⟨o1.1, o1.2.1, o1.2.2.1⟩, o1.2.2.2⟩,
      ⟨⟨o2.1, o2.2.1, o2.2.2.1⟩, o2.2.2.2⟩, ⟨⟨o3.1, o3.2.1, o3.2.2.1⟩, o3.2.2.2⟩,
      ⟨⟨o4.1, o4.2.1, o4.2.2.1⟩, o4.2.2.2⟩, ?_⟩
    conv_lhs => rw [← joinDots_splitDots cs]
    rw [hsp]
    rfl
  · rintro ⟨d1, d2, d3, d4, o1, o2, o3, o4, rfl⟩
    have hsp := splitDots_quad d1 d2 d3 d4 o1.1.2.2 o2.1.2.2 o3.1.2.2
      (no_dot_of_digits d4 o4.1.2.2)
    unfold dotted_quad_core
    rw [hsp]
    refine ⟨rfl, ?_⟩
    intro p hp
    simp only [List.mem_cons, List.not_mem_nil, or_false] at hp
    rcases hp with rfl | rfl | rfl | rfl
    · exact ⟨o1.1.1, o1.1.2.1, o1.1.2.2, o1.2⟩
    · exact ⟨o2.1.1, o2.1.2.1, o2.1.2.2, o2.2⟩
    · exact ⟨o3.1.1, o3.1.2.1, o3.1.2.2, o3.2⟩
    · exact ⟨o4.1.1, o4.1.2.1, o4.1.2.2, o4.2⟩

lemma getLast_dropLast_decomp {cs : List Char} {c : Char} (h : cs.getLast? = some c) :
    cs.dropLast ++ [c] = cs := by
  rcases List.eq_nil_or_concat cs with rfl | ⟨t, a, rfl⟩
  · cases h
  · rw [List.concat_eq_append] at h ⊢
    rw [List.getLast?_concat] at h
    simp only [Option.some.injEq] at h
    rw [List.dropLast_concat, h]

/-- A string the regex body fully matches ends with a digit (in particular,
not with a newline). -/
lemma re_body_getLast_digit {cs : List Char} (h : re_body cs = true) :
    ∃ c, cs.getLast? = some c ∧ c.isDigit = true := by
  obtain ⟨d1, d2, d3, d4, o1, o2, o3, o4, rfl⟩ := re_body_decomp.mp h
  rcases List.eq_nil_or_concat d4 with rfl | ⟨t, a, hd4⟩
  · exact absurd o4.1 (by simp)
  · rw [List.concat_eq_append] at hd4
    refine ⟨a, ?_, ?_⟩
    · rw [hd4]
      rw [show d1 ++ '.' :: (d2 ++ '.' :: (d3 ++ '.' :: (t ++ [a]))) =
          (d1 ++ '.' :: (d2 ++ '.' :: (d3 ++ '.' :: t))) ++ [a] by simp]
      exact List.getLast?_concat _
    · have ha : a ∈ d4 := by rw [hd4]; simp
      exact List.all_eq_true.mp o4.2.2 _ ha

/-- Full acceptance characterization of the IP check: a string is accepted
exactly when it is a value-bounded dotted quad, or a value-bounded dotted
quad followed by one trailing newline (which `$` tolerates). -/
lemma validate_ip_accepts_iff (s : String) :
    validate_ip_address s = true ↔
      (dotted_quad_core s.data ∨
       (s.data.getLast? = some '\n' ∧ dotted_quad_core s.data.dropLast)) := by
  constructor
  · intro h
    unfold validate_ip_address at h
    rcases hm : re_match s with _ | _
    · rw [hm] at h
      simp at h
    rw [hm] at h
    simp only [Bool.not_true, Bool.false_eq_true, if_false, List.all_eq_true,
      decide_eq_true_eq] at h
    unfold re_match at hm
    simp only [Bool.or_eq_true, Bool.and_eq_true, beq_iff_eq] at hm
    rcases hb : re_body s.data with _ | _
    · rw [hb] at hm
      simp only [Bool.false_eq_true, false_or] at hm
      obtain ⟨hnl, hb2⟩ := hm
      right
      obtain ⟨d1, d2, d3, d4, o1, o2, o3, o4, hdl⟩ := re_body_decomp.mp hb2
      have hcs : s.data = s.data.dropLast ++ ['\n'] :=
        (getLast_dropLast_decomp hnl).symm
      have hsd : s.data = d1 ++ '.' :: (d2 ++ '.' :: (d3 ++ '.' :: (d4 ++ ['\n']))) := by
        rw [hcs, hdl]
        simp
      have hnd : '.' ∉ d4 ++ ['\n'] := by
        intro hmem
        rcases List.mem_append.mp hmem with hmem | hmem
        · exact no_dot_of_digits d4 o4.2.2 hmem
        · simp at hmem
      have hsp : splitDots s.data = [d1, d2, d3, d4 ++ ['\n']] := by
        rw [hsd]
        exact splitDots_quad _ _ _ _ o1.2.2 o2.2.2 o3.2.2 hnd
      have hv1 := h d1 (by rw [hsp]; simp)
      have hv2 := h d2 (by rw [hsp]; simp)
      have hv3 := h d3 (by rw [hsp]; simp)
      have hv4 := h (d4 ++ ['\n']) (by rw [hsp]; simp)
      rw [pyInt_digits _ o1.2.2] at hv1
      rw [pyInt_digits _ o2.2.2] at hv2
      rw [pyInt_digits _ o3.2.2] at hv3
      rw [pyInt_digits_newline _ o4.2.2] at hv4
      exact ⟨hnl, (dotted_quad_core_iff_decomp _).mpr
        ⟨d1, d2, d3, d4, ⟨o1, hv1⟩, ⟨o2, hv2⟩, ⟨o3, hv3⟩, ⟨o4, hv4⟩, hdl⟩⟩
    · left
      obtain ⟨d1, d2, d3, d4, o1, o2, o3, o4, hcs⟩ := re_body_decomp.mp hb
      have hsp : splitDots s.data = [d1, d2, d3, d4] := by
        rw [hcs]
        exact splitDots_quad _ _ _ _ o1.2.2 o2.2.2 o3.2.2 (no_dot_of_digits d4 o4.2.2)
      have hv1 := h d1 (by rw [hsp]; simp)
      have hv2 := h d2 (by rw [hsp]; simp)
      have hv3 := h d3 (by rw [hsp]; simp)
      have hv4 := h d4 (by rw [hsp]; simp)
      rw [pyInt_digits _ o1.2.2] at hv1
      rw [pyInt_digits _ o2.2.2] at hv2
      rw [pyInt_digits _ o3.2.2] at hv3
      rw [pyInt_digits _ o4.2.2] at hv4
      exact (dotted_quad_core_iff_decomp _).mpr
        ⟨d1, d2, d3, d4, ⟨o1, hv1⟩, ⟨o2, hv2⟩, ⟨o3, hv3⟩, ⟨o4, hv4⟩, hcs⟩
  · intro h
    unfold validate_ip_address
    rcases h with hcore | ⟨hnl, hcore⟩
    · obtain ⟨d1, d2, d3, d4, o1, o2, o3, o4, hcs⟩ :=
        (dotted_quad_core_iff_decomp _).mp hcore
      have hb : re_body s.data = true :=
        re_body_decomp.mpr ⟨d1, d2, d3, d4, o1.1, o2.1, o3.1, o4.1, hcs⟩
      have hm : re_match s = true := by
        unfold re_match
        rw [hb]
        rfl
      rw [hm]
      simp only [Bool.not_true, Bool.false_eq_true, if_false, List.all_eq_true,
        decide_eq_true_eq]
      intro p hp
      have hsp : splitDots s.data = [d1, d2, d3, d4] := by
        rw [hcs]
        exact splitDots_quad _ _ _ _ o1.1.2.2 o2.1.2.2 o3.1.2.2
          (no_dot_of_digits d4 o4.1.2.2)
      rw [hsp] at hp
      simp only [List.mem_cons, List.not_mem_nil, or_false] at hp
      rcases hp with rfl | rfl | rfl | rfl
      · rw [pyInt_digits _ o1.1.2.2]; exact o1.2
      · rw [pyInt_digits _ o2.1.2.2]; exact o2.2
      · rw [pyInt_digits _ o3.1.2.2]; exact o3.2
      · rw [pyInt_digits _ o4.1.2.2]; exact o4.2
    · obtain ⟨d1, d2, d3, d4, o1, o2, o3, o4, hdl⟩ :=
        (dotted_quad_core_iff_decomp _).mp hcore
      have hb2 : re_body s.data.dropLast = true :=
        re_body_decomp.mpr ⟨d1, d2, d3, d4, o1.1, o2.1, o3.1, o4.1, hdl⟩
      have hm : re_match s = true := by
        unfold re_match
        rw [hb2, hnl]
        simp
      rw [hm]
      simp only [Bool.not_true, Bool.false_eq_true, if_false, List.all_eq_true,
        decide_eq_true_eq]
      intro p hp
      have hcs : s.data = s.data.dropLast ++ ['\n'] :=
        (getLast_dropLast_decomp hnl).symm
      have hsd : s.data = d1 ++ '.' :: (d2 ++ '.' :: (d3 ++ '.' :: (d4 ++ ['\n']))) := by
        rw [hcs, hdl]
        simp
      have hnd : '.' ∉ d4 ++ ['\n'] := by
        intro hmem
        rcases List.mem_append.mp hmem with hmem | hmem
        · exact no_dot_of_digits d4 o4.1.2.2 hmem
        · simp at hmem
      have hsp : splitDots s.data = [d1, d2, d3, d4 ++ ['\n']] := by
        rw [hsd]
        exact splitDots_quad _ _ _ _ o1.1.2.2 o2.1.2.2 o3.1.2.2 hnd
      rw [hsp] at hp
      simp only [List.mem_cons, List.not_mem_nil, or_false] at hp
      rcases hp with rfl | rfl | rfl | rfl
      · rw [pyInt_digits _ o1.1.2.2]; exact o1.2
      · rw [pyInt_digits _ o2.1.2.2]; exact o2.2
      · rw [pyInt_digits _ o3.1.2.2]; exact o3.2
      · rw [pyInt_digits_newline _ o4.1.2.2]; exact o4.2

lemma validate_ip_empty : validate_ip_address "" = false := by decide

lemma truthy_of_valid_ip {o : Option String} {ip : String}
    (ho : o = some ip) (hv : validate_ip_address ip = true) : truthy o = true := by
  subst ho
  have hne : ip ≠ "" := by
    rintro rfl
    rw [validate_ip_empty] at hv
    cases hv
  simp [truthy, hne]

/-! ## Shape of the validator's error messages

Every error contributed by the interface, routing and security checks starts
with a fixed literal (`Interface `, `OSPF `, `ACL `) that is incomparable
with the device check's `Invalid IP address: ` prefix. -/

lemma interface_findings_shape (idx : Nat) (i : InterfaceSpec) :
    ∀ e ∈ interface_findings idx i, ∃ r, e = "Interface " ++ r := by
  intro e he
  unfold interface_findings at he
  simp only [List.mem_append] at he
  rcases he with ((h | h) | h) | h
  · have h' := mem_ite_nil h
    simp only [List.mem_singleton] at h'
    exact ⟨_, by rw [h', String.append_assoc]⟩
  · have h' := mem_ite_nil h
    simp only [List.mem_singleton] at h'
    exact ⟨_, by rw [h', String.append_assoc]⟩
  · have h' := mem_ite_nil h
    simp only [List.mem_singleton] at h'
    exact ⟨_, by rw [h', String.append_assoc]⟩
  · rcases hip : i.ip_address with _ | ip
    · rw [hip] at h
      cases h
    · rw [hip] at h
      simp only [List.mem_append] at h
      rcases h with h | h
      · have h' := mem_ite_nil h
        simp only [List.mem_singleton] at h'
        exact ⟨_, by rw [h', String.append_assoc, String.append_assoc]⟩
      · rcases hmask : i.subnet_mask with _ | mask
        · rw [hmask] at h
          simp only [List.mem_singleton] at h
          exact ⟨_, by rw [h, String.append_assoc]⟩
        · rw [hmask] at h
          have h' := mem_ite_nil h
          simp only [List.mem_singleton] at h'
          exact ⟨_, by rw [h', String.append_assoc]⟩

lemma interfaces_check_shape (idx : Nat) (ifs : List InterfaceSpec) :
    ∀ e ∈ interfaces_check idx ifs, ∃ r, e = "Interface " ++ r := by
  induction ifs generalizing idx with
  | nil => intro e he; cases he
  | cons i rest ih =>
    intro e he
    simp only [interfaces_check, List.mem_append] at he
    rcases he with h | h
    · exact interface_findings_shape idx i e h
    · exact ih (idx + 1) e h

lemma network_findings_shape (idx : Nat) (e : NetworkEntry) :
    ∀ x ∈ network_findings idx e, ∃ r, x = "OSPF " ++ r := by
  intro x hx
  unfold network_findings at hx
  simp only [List.mem_append] at hx
  have hpre : ("OSPF network " : String) = "OSPF " ++ "network " := rfl
  rcases hx with (h | h) | h <;>
    · have h' := mem_ite_nil h
      simp only [List.mem_singleton] at h'
      exact ⟨_, by rw [h', hpre, String.append_assoc, String.append_assoc]⟩

lemma networks_check_shape (idx : Nat) (es : List NetworkEntry) :
    ∀ x ∈ networks_check idx es, ∃ r, x = "OSPF " ++ r := by
  induction es generalizing idx with
  | nil => intro x hx; cases hx
  | cons e rest ih =>
    intro x hx
    simp only [networks_check, List.mem_append] at hx
    rcases hx with h | h
    · exact network_findings_shape idx e x h
    · exact ih (idx + 1) x h

lemma validate_routing_shape (o : OspfSpec) :
    ∀ x ∈ (validate_routing o).1, ∃ r, x = "OSPF " ++ r := by
  intro x hx
  unfold validate_routing at hx
  split at hx
  · simp only [List.mem_append] at hx
    rcases hx with h | h
    · have h' := mem_ite_nil h
      simp only [List.mem_singleton] at h'
      exact ⟨_, by rw [h']; rfl⟩
    · exact networks_check_shape 0 o.networks x h
  · cases hx

lemma rule_findings_shape (label : String) (r : AclRule) :
    ∀ x ∈ (rule_findings label r).1, ∃ s, x = "ACL " ++ s := by
  intro x hx
  unfold rule_findings at hx
  simp only [List.mem_append] at hx
  rcases hx with (h | h) | h <;>
    · have h' := mem_ite_nil h
      simp only [List.mem_singleton] at h'
      exact ⟨_, by rw [h', String.append_assoc]⟩

lemma rules_check_shape (label : String) (rs : List AclRule) :
    ∀ x ∈ (rules_check label rs).1, ∃ s, x = "ACL " ++ s := by
  induction rs with
  | nil => intro x hx; cases hx
  | cons r rest ih =>
    intro x hx
    simp only [rules_check, List.mem_append] at hx
    rcases hx with h | h
    · exact rule_findings_shape label r x h
    · exact ih x h

lemma acl_findings_shape (acl : AclSpec) :
    ∀ x ∈ (acl_findings acl).1, ∃ s, x = "ACL " ++ s := by
  intro x hx
  unfold acl_findings at hx
  simp only [List.mem_append] at hx
  rcases hx with (h | h) | h
  · have h' := mem_ite_nil h
    simp only [List.mem_singleton] at h'
    exact ⟨_, by rw [h']; rfl⟩
  · have h' := mem_ite_nil h
    simp only [List.mem_singleton] at h'
    exact ⟨_, by rw [h', String.append_assoc]⟩
  · exact rules_check_shape _ acl.rules x h

lemma acls_check_shape (acls : List AclSpec) :
    ∀ x ∈ (acls_check acls).1, ∃ s, x = "ACL " ++ s := by
  induction acls with
  | nil => intro x hx; cases hx
  | cons acl rest ih =>
    intro x hx
    simp only [acls_check, List.mem_append] at hx
    rcases hx with h | h
    · exact acl_findings_shape acl x h
    · exact ih x h

/-! ## Sufficient conditions for each check to contribute no error -/

lemma validate_device_info_errors_nil (d : DeviceInfo)
    (h1 : truthy d.hostname = true)
    (h2 : ∃ ip, d.ip_address = some ip ∧ validate_ip_address ip = true) :
    (validate_device_info d).1 = [] := by
  obtain ⟨ip, hip, hv⟩ := h2
  have ht := truthy_of_valid_ip hip hv
  unfold validate_device_info
  rw [h1, ht]
  simp only [Bool.not_true, Bool.false_eq_true, if_false]
  rw [hip]
  simp only [Option.getD_some, hv, Bool.not_true, Bool.false_eq_true, if_false,
    List.nil_append]

lemma interface_findings_nil (idx : Nat) (i : InterfaceSpec)
    (hn : truthy i.name = true) (hd : truthy i.description = true)
    (hs : truthy i.status = true)
    (hip : ∀ ip, i.ip_address = some ip →
      validate_ip_address ip = true ∧
      ∃ mask, i.subnet_mask = some mask ∧ validate_subnet_mask mask = true) :
    interface_findings idx i = [] := by
  unfold interface_findings
  rw [hn, hd, hs]
  simp only [Bool.not_true, Bool.false_eq_true, if_false, List.nil_append]
  rcases hi : i.ip_address with _ | ip
  · rfl
  · obtain ⟨hv, mask, hm, hvm⟩ := hip ip hi
    simp [hv, hm, hvm]

lemma interfaces_check_nil (idx : Nat) (ifs : List InterfaceSpec)
    (h : ∀ i ∈ ifs,
      truthy i.name = true ∧ truthy i.description = true ∧ truthy i.status = true ∧
      ∀ ip, i.ip_address = some ip →
        validate_ip_address ip = true ∧
        ∃ mask, i.subnet_mask = some mask ∧ validate_subnet_mask mask = true) :
    interfaces_check idx ifs = [] := by
  induction ifs generalizing idx with
  | nil => rfl
  | cons i rest ih =>
    obtain ⟨hn, hd, hs, hip⟩ := h i (by simp)
    simp only [interfaces_check, interface_findings_nil idx i hn hd hs hip,
      List.nil_append]
    exact ih (idx + 1) fun j hj => h j (by simp [hj])

lemma network_findings_nil (idx : Nat) (e : NetworkEntry)
    (h1 : validate_ip_address (e.network.getD "") = true)
    (h2 : validate_ip_address (e.wildcard.getD "") = true)
    (h3 : e.area.isSome = true) :
    network_findings idx e = [] := by
  unfold network_findings
  rw [h1, h2]
  rw [Option.isSome_iff_ne_none] at h3
  simp [Option.isNone_iff_eq_none, h3]

lemma networks_check_nil (idx : Nat) (es : List NetworkEntry)
    (h : ∀ e ∈ es,
      validate_ip_address (e.network.getD "") = true ∧
      validate_ip_address (e.wildcard.getD "") = true ∧ e.area.isSome = true) :
    networks_check idx es = [] := by
  induction es generalizing idx with
  | nil => rfl
  | cons e rest ih =>
    obtain ⟨h1, h2, h3⟩ := h e (by simp)
    simp only [networks_check, network_findings_nil idx e h1 h2 h3, List.nil_append]
    exact ih (idx + 1) fun j hj => h j (by simp [hj])

lemma validate_routing_errors_nil (o : OspfSpec)
    (h : o.enabled = false ∨
      (truthy o.process_id = true ∧
       ∀ e ∈ o.networks,
         validate_ip_address (e.network.getD "") = true ∧
         validate_ip_address (e.wildcard.getD "") = true ∧ e.area.isSome = true)) :
    (validate_routing o).1 = [] := by
  unfold validate_routing
  rcases h with h | ⟨hp, hn⟩
  · rw [h]
    simp
  · rcases he : o.enabled with _ | _
    · simp
    · simp only [if_true]
      rw [hp, networks_check_nil 0 o.networks hn]
      simp

lemma rule_findings_errors_nil (label : String) (r : AclRule)
    (ha : r.action = some "permit" ∨ r.action = some "deny")
    (hp : truthy r.protocol = true) (hs : truthy r.source = true) :
    (rule_findings label r).1 = [] := by
  unfold rule_findings
  have hact : (r.action == some "permit" || r.action == some "deny") = true := by
    rcases ha with h | h <;> simp [h]
  rw [hact, hp, hs]
  simp

lemma rules_check_errors_nil (label : String) (rs : List AclRule)
    (h : ∀ r ∈ rs,
      (r.action = some "permit" ∨ r.action = some "deny") ∧
      truthy r.protocol = true ∧ truthy r.source = true) :
    (rules_check label rs).1 = [] := by
  induction rs with
  | nil => rfl
  | cons r rest ih =>
    obtain ⟨ha, hp, hs⟩ := h r (by simp)
    simp only [rules_check, rule_findings_errors_nil label r ha hp hs, List.nil_append]
    exact ih fun j hj => h j (by simp [hj])

lemma acl_findings_errors_nil (acl : AclSpec)
    (hn : truthy acl.name = true)
    (ht : acl.type = some "standard" ∨ acl.type = some "extended")
    (hr : ∀ r ∈ acl.rules,
      (r.action = some "permit" ∨ r.action = some "deny") ∧
      truthy r.protocol = true ∧ truthy r.source = true) :
    (acl_findings acl).1 = [] := by
  unfold acl_findings
  have htb : (acl.type == some "standard" || acl.type == some "extended") = true := by
    rcases ht with h | h <;> simp [h]
  rw [hn, htb]
  simp only [Bool.not_true, Bool.false_eq_true, if_false, List.nil_append]
  exact rules_check_errors_nil _ acl.rules hr

lemma acls_check_errors_nil (acls : List AclSpec)
    (h : ∀ acl ∈ acls,
      truthy acl.name = true ∧
      (acl.type = some "standard" ∨ acl.type = some "extended") ∧
      ∀ r ∈ acl.rules,
        (r.action = some "permit" ∨ r.action = some "deny") ∧
        truthy r.protocol = true ∧ truthy r.source = true) :
    (acls_check acls).1 = [] := by
  induction acls with
  | nil => rfl
  | cons acl rest ih =>
    obtain ⟨hn, ht, hr⟩ := h acl (by simp)
    simp only [acls_check, acl_findings_errors_nil acl hn ht hr, List.nil_append]
    exact ih fun j hj => h j (by simp [hj])

/-! ## Claim C1 -/

/-- The validity hypothesis of claim C1, exactly as worded: hostname present,
device IP present and a valid dotted quad, every interface **that has an
`ip_address`** also has a valid subnet mask plus name/description/status
present, OSPF disabled or with a process id and fully valid network entries,
and every ACL rule fully specified with valid action and type. -/
def claim_valid_model (m : DeviceModel) : Prop :=
  truthy m.device.hostname = true ∧
  (m.device.ip_address.isSome = true ∧
   validate_ip_address (m.device.ip_address.getD "") = true) ∧
  (∀ i ∈ m.interfaces, i.ip_address.isSome = true →
    (i.subnet_mask.isSome = true ∧
     validate_subnet_mask (i.subnet_mask.getD "") = true) ∧
    truthy i.name = true ∧ truthy i.description = true ∧ truthy i.status = true) ∧
  (m.ospf.enabled = false ∨
    (truthy m.ospf.process_id = true ∧
     ∀ e ∈ m.ospf.networks,
       validate_ip_address (e.network.getD "") = true ∧
       validate_ip_address (e.wildcard.getD "") = true ∧ e.area.isSome = true)) ∧
  (∀ acl ∈ m.access_lists,
    (acl.type = some "standard" ∨ acl.type = some "extended") ∧
    ∀ r ∈ acl.rules,
      (r.action = some "permit" ∨ r.action = some "deny") ∧
      truthy r.protocol = true ∧ truthy r.source = true)

/-- The amended validity hypothesis: additionally every interface (with or
without an IP) needs name/description/status, an interface's own
`ip_address` must itself be a valid dotted quad, and every ACL needs a
name. -/
def amended_valid_model (m : DeviceModel) : Prop :=
  truthy m.device.hostname = true ∧
  (m.device.ip_address.isSome = true ∧
   validate_ip_address (m.device.ip_address.getD "") = true) ∧
  (∀ i ∈ m.interfaces,
    truthy i.name = true ∧ truthy i.description = true ∧ truthy i.status = true ∧
    (i.ip_address.isSome = true →
      validate_ip_address (i.ip_address.getD "") = true ∧
      i.subnet_mask.isSome = true ∧
      validate_subnet_mask (i.subnet_mask.getD "") = true)) ∧
  (m.ospf.enabled = false ∨
    (truthy m.ospf.process_id = true ∧
     ∀ e ∈ m.ospf.networks,
       validate_ip_address (e.network.getD "") = true ∧
       validate_ip_address (e.wildcard.getD "") = true ∧ e.area.isSome = true)) ∧
  (∀ acl ∈ m.access_lists,
    truthy acl.name = true ∧
    (acl.type = some "standard" ∨ acl.type = some "extended") ∧
    ∀ r ∈ acl.rules,
      (r.action = some "permit" ∨ r.action = some "deny") ∧
      truthy r.protocol = true ∧ truthy r.source = true)

lemma validate_all_errors_nil (m : DeviceModel) (h : amended_valid_model m) :
    (validate_all m).1 = [] := by
  obtain ⟨h1, ⟨h2a, h2b⟩, h3, h4, h5⟩ := h
  have hd : (validate_device_info m.device).1 = [] := by
    refine validate_device_info_errors_nil m.device h1 ?_
    obtain ⟨ip, hip⟩ := Option.isSome_iff_exists.mp h2a
    exact ⟨ip, hip, by rw [hip] at h2b; exact h2b⟩
  have hi : (validate_interfaces m.interfaces).1 = [] := by
    unfold validate_interfaces
    rcases he : m.interfaces.isEmpty with _ | _
    · simp only [Bool.false_eq_true, if_false]
      refine interfaces_check_nil 0 m.interfaces fun i hmem => ?_
      obtain ⟨hn, hdsc, hst, hip⟩ := h3 i hmem
      refine ⟨hn, hdsc, hst, fun ip hsome => ?_⟩
      rw [hsome] at hip
      obtain ⟨hv, hms, hmv⟩ := hip rfl
      simp only [Option.getD_some] at hv
      obtain ⟨mask, hmask⟩ := Option.isSome_iff_exists.mp hms
      rw [hmask] at hmv
      simp only [Option.getD_some] at hmv
      exact ⟨hv, mask, hmask, hmv⟩
    · simp
  have hr : (validate_routing m.ospf).1 = [] := validate_routing_errors_nil m.ospf h4
  have hs : (validate_security m.access_lists).1 = [] := by
    unfold validate_security
    exact acls_check_errors_nil m.access_lists h5
  unfold validate_all
  simp only [hd, hi, hr, hs, List.append_nil]

/-- C1 (amended): for every model satisfying the amended §8 validity
hypothesis (which also requires name/description/status on every interface,
validity of each interface's own IP address, and a name on every ACL),
running all validation checks produces an empty error list, i.e.
`is_valid()` returns true. -/
theorem C1_theorem (m : DeviceModel) (h : amended_valid_model m) :
    is_valid m = true := by
  unfold is_valid
  rw [validate_all_errors_nil m h]
  rfl

/-- A fully valid model used to witness C1. -/
def c1_witness_model : DeviceModel :=
  { device := { hostname := some "edge-router", ip_address := some "192.168.1.1"
              , device_type := some "cisco_ios" }
  , interfaces := [{ name := some "GigabitEthernet0/0", description := some "Uplink"
                   , status := some "up", ip_address := some "10.0.0.2"
                   , subnet_mask := some "255.255.255.0" }]
  , ospf := { enabled := true, process_id := some "1"
            , networks := [{ network := some "10.0.0.0", wildcard := some "0.0.0.255"
                           , area := some 0 }] }
  , access_lists := [{ name := some "EDGE-IN", type := some "extended"
                     , rules := [{ action := some "permit", protocol := some "tcp"
                                 , source := some "10.0.0.0"
                                 , source_wildcard := some "0.0.0.255"
                                 , destination := some "any"
                                 , destination_port := some "443" }] }] }

theorem C1_witness :
    amended_valid_model c1_witness_model ∧ is_valid c1_witness_model = true := by
  have h : amended_valid_model c1_witness_model := by
    unfold amended_valid_model
    decide
  exact ⟨h, C1_theorem c1_witness_model h⟩

/-- A model satisfying C1's literal hypothesis (its one interface has a
valid subnet mask and name/description/status) whose interface `ip_address`
is nevertheless invalid, so validation reports an error. -/
def c1_cex_model : DeviceModel :=
  { device := { hostname := some "r1", ip_address := some "10.0.0.1"
              , device_type := some "cisco_ios" }
  , interfaces := [{ name := some "Gi0/0", description := some "Uplink"
                   , status := some "up", ip_address := some "999.999.999.999"
                   , subnet_mask := some "255.255.255.0" }]
  , ospf := { enabled := false, process_id := none, networks := [] }
  , access_lists := [] }

/-- C1 is false as stated: `c1_cex_model` satisfies the claim's literal
validity hypothesis, yet `is_valid()` returns false (the interface IP
`999.999.999.999` is flagged). -/
theorem C1_counterexample :
    claim_valid_model c1_cex_model ∧ is_valid c1_cex_model = false := by
  have h : claim_valid_model c1_cex_model := by
    unfold claim_valid_model
    decide
  exact ⟨h, by decide⟩

/-! ## Claim C7 -/

/-- Drop only the `hostname` field from the device section. -/
def remove_hostname (m : DeviceModel) : DeviceModel :=
  { m with device := { m.device with hostname := none } }

/-- C7 (amended): for every model on which validation yields zero errors,
removing only the hostname yields exactly the single error
`Device hostname is required`, whose text contains `hostname`. -/
theorem C7_theorem (m : DeviceModel) (h : (validate_all m).1 = []) :
    (validate_all (remove_hostname m)).1 = ["Device hostname is required"] ∧
    ∃ a b, "Device hostname is required" = a ++ "hostname" ++ b := by
  refine ⟨?_, "Device ", " is required", by decide⟩
  unfold validate_all at h ⊢
  simp only [List.append_eq_nil] at h
  obtain ⟨⟨⟨h1, h2⟩, h3⟩, h4⟩ := h
  have hip : (if !truthy m.device.ip_address then ["Device IP address is required"]
      else if !validate_ip_address (m.device.ip_address.getD "")
      then ["Invalid IP address: " ++ m.device.ip_address.getD ""] else []) = [] := by
    unfold validate_device_info at h1
    simp only [List.append_eq_nil] at h1
    exact h1.2
  simp only [remove_hostname]
  rw [h2, h3, h4]
  unfold validate_device_info
  dsimp only
  rw [hip]
  simp [truthy]

/-- A clean model used to witness C7. -/
def c7_witness_model : DeviceModel :=
  { device := { hostname := some "core-switch", ip_address := some "172.16.0.1"
              , device_type := some "cisco_ios" }
  , interfaces := [{ name := some "Vlan10", description := some "Users"
                   , status := some "up", ip_address := some "172.16.10.1"
                   , subnet_mask := some "255.255.255.0" }]
  , ospf := { enabled := false, process_id := none, networks := [] }
  , access_lists := [] }

theorem C7_witness :
    (validate_all c7_witness_model).1 = [] ∧
    (validate_all (remove_hostname c7_witness_model)).1 =
      ["Device hostname is required"] := by
  have h : (validate_all c7_witness_model).1 = [] := by decide
  exact ⟨h, (C7_theorem c7_witness_model h).1⟩

/-- A model satisfying C7's literal hypothesis (valid in the sense of §8)
for which removing the hostname yields two errors, not one: the §8
hypothesis misses the validity of the interface's own IP address. -/
def c7_cex_model : DeviceModel :=
  { device := { hostname := some "r2", ip_address := some "10.1.0.1"
              , device_type := some "cisco_ios" }
  , interfaces := [{ name := some "Gi0/1", description := some "Downlink"
                   , status := some "up", ip_address := some "300.300.300.300"
                   , subnet_mask := some "255.255.0.0" }]
  , ospf := { enabled := false, process_id := none, networks := [] }
  , access_lists := [] }

/-- C7 is false as stated: `c7_cex_model` is valid in the literal sense of
§8, yet removing only the hostname leaves two validation errors. -/
theorem C7_counterexample :
    claim_valid_model c7_cex_model ∧
    (validate_all (remove_hostname c7_cex_model)).1.length = 2 := by
  have h : claim_valid_model c7_cex_model := by
    unfold claim_valid_model
    decide
  exact ⟨h, by decide⟩

/-! ## Claim C3 -/

/-- C3 (amended): restricted to ASCII strings (Python's `\\d` additionally
matches non-ASCII Unicode decimal digits, which the embedding does not
model), the IP check accepts a string exactly when it is four dot-separated
groups of **one to three** decimal digits each with value in [0,255],
optionally followed by one trailing newline, which the regex's `$`
tolerates; for every model whose device IP is present and non-empty, an
address failing the check puts `Invalid IP address: <ip>` in the error list,
and an address passing it keeps that error out of the whole error list. -/
theorem C3_theorem :
    (∀ s : String, s.data.all (fun c => c.toNat < 128) = true →
      (validate_ip_address s = true ↔
        (dotted_quad_core s.data ∨
         (s.data.getLast? = some '\n' ∧ dotted_quad_core s.data.dropLast)))) ∧
    (∀ (m : DeviceModel) (s : String), m.device.ip_address = some s → s ≠ "" →
      (validate_ip_address s = false →
        ("Invalid IP address: " ++ s) ∈ (validate_all m).1) ∧
      (validate_ip_address s = true →
        ("Invalid IP address: " ++ s) ∉ (validate_all m).1)) := by
  refine ⟨fun s _ => validate_ip_accepts_iff s, ?_⟩
  intro m s hip hne
  have htr : truthy m.device.ip_address = true := by
    rw [hip]
    simp [truthy, hne]
  constructor
  · intro hbad
    unfold validate_all
    simp only [List.mem_append]
    left; left; left
    unfold validate_device_info
    dsimp only
    rw [htr, hip]
    simp [hbad]
  · intro hgood hmem
    unfold validate_all at hmem
    simp only [List.mem_append] at hmem
    rcases hmem with ((hd | hi) | hr) | hs
    · unfold validate_device_info at hd
      dsimp only at hd
      rw [htr, hip] at hd
      simp only [Option.getD_some, hgood, Bool.not_true, Bool.false_eq_true, if_false,
        List.append_nil] at hd
      have h' := mem_ite_nil hd
      simp only [List.mem_singleton] at h'
      exact const_ne_append _ _ _ (by decide) h'.symm
    · unfold validate_interfaces at hi
      split at hi
      · cases hi
      · obtain ⟨r, hr⟩ := interfaces_check_shape 0 m.interfaces _ hi
        exact append_ne_append_of_incomparable "Invalid IP address: " "Interface " s r
          (by decide) (by decide) hr
    · obtain ⟨r, hr⟩ := validate_routing_shape m.ospf _ hr
      exact append_ne_append_of_incomparable "Invalid IP address: " "OSPF " s r
        (by decide) (by decide) hr
    · obtain ⟨r, hr⟩ := acls_check_shape m.access_lists _ hs
      exact append_ne_append_of_incomparable "Invalid IP address: " "ACL " s r
        (by decide) (by decide) hr

/-- A model whose device IP is `0255.0.0.0`: four dot-separated decimal
tokens each of value at most 255 (the claim's literal pattern), yet the
regex rejects the four-digit token, so validation emits an error referencing
the address.  Everything else in the model is clean. -/
def c3_cex_model : DeviceModel :=
  { device := { hostname := some "r3", ip_address := some "0255.0.0.0"
              , device_type := some "cisco_ios" }
  , interfaces := []
  , ospf := { enabled := false, process_id := none, networks := [] }
  , access_lists := [] }

/-- C3 is false as stated, in both directions: `0255.0.0.0` satisfies the
claim's literal pattern (four dot-separated decimal tokens with values in
[0,255]) but the check rejects the four-digit token and validation reports
an error referencing it; and `1.2.3.4\n` is accepted by the check (`$`
matches before the trailing newline, as in the source) although it is not
four decimal tokens. -/
theorem C3_counterexample :
    claim_ip_tokens "0255.0.0.0" = true ∧
    validate_ip_address "0255.0.0.0" = false ∧
    ("Invalid IP address: " ++ "0255.0.0.0") ∈ (validate_all c3_cex_model).1 ∧
    validate_ip_address "1.2.3.4\n" = true ∧
    claim_ip_tokens "1.2.3.4\n" = false := by
  refine ⟨by decide, by decide, ?_, by decide, by decide⟩
  have : (validate_all c3_cex_model).1 = ["Invalid IP address: 0255.0.0.0"] := by decide
  rw [this]
  simp

theorem C3_witness :
    (validate_ip_address "192.168.1.1" = true ↔
      (dotted_quad_core "192.168.1.1".data ∨
       ("192.168.1.1".data.getLast? = some '\n' ∧
        dotted_quad_core "192.168.1.1".data.dropLast))) ∧
    (validate_ip_address "192.168.1.1" = true →
      ("Invalid IP address: " ++ "192.168.1.1") ∉ (validate_all c1_witness_model).1) := by
  refine ⟨C3_theorem.1 "192.168.1.1" (by decide), ?_⟩
  exact fun hv => (C3_theorem.2 c1_witness_model "192.168.1.1" rfl (by decide)).2 hv

/-! ## Claim C2 -/

lemma not_prefix_append (p q b : String)
    (h1 : ¬ p.data <+: q.data) (h2 : ¬ q.data <+: p.data) :
    ¬ p.data <+: (q ++ b).data := by
  intro h
  rw [String.data_append] at h
  have hq : q.data <+: q.data ++ b.data := List.prefix_append q.data b.data
  rcases List.prefix_or_prefix_of_prefix h hq with h' | h'
  · exact h1 h'
  · exact h2 h'

lemma subnet_error_mem_findings (idx : Nat) (i : InterfaceSpec)
    (hname : truthy i.name = true) (hip : i.ip_address.isSome = true)
    (hmask : i.subnet_mask = none) :
    ("Interface " ++ i.name.getD "" ++ ": Subnet mask required when IP is configured")
      ∈ interface_findings idx i := by
  obtain ⟨ip, hipe⟩ := Option.isSome_iff_exists.mp hip
  rcases hn : i.name with _ | nm
  · rw [hn] at hname
    simp [truthy] at hname
  unfold interface_findings
  rw [hn, hipe, hmask]
  simp

lemma subnet_error_mem_check (idx : Nat) (ifs : List InterfaceSpec) (i : InterfaceSpec)
    (hmem : i ∈ ifs) (hname : truthy i.name = true) (hip : i.ip_address.isSome = true)
    (hmask : i.subnet_mask = none) :
    ("Interface " ++ i.name.getD "" ++ ": Subnet mask required when IP is configured")
      ∈ interfaces_check idx ifs := by
  induction ifs generalizing idx with
  | nil => cases hmem
  | cons j rest ih =>
    simp only [interfaces_check, List.mem_append]
    rcases List.mem_cons.mp hmem with rfl | h
    · exact Or.inl (subnet_error_mem_findings idx i hname hip hmask)
    · exact Or.inr (ih (idx + 1) h)

/-- The four lines the generator emits for a named interface that has an IP
but no subnet mask. -/
def maskless_block (i : InterfaceSpec) : List String :=
  ["interface " ++ i.name.getD "",
   " description " ++ i.description.getD ("Interface " ++ i.name.getD ""),
   if i.status.getD "down" == "up" then " no shutdown" else " shutdown",
   "!"]

lemma maskless_block_infix (ifs : List InterfaceSpec) (i : InterfaceSpec)
    (hmem : i ∈ ifs) (hname : truthy i.name = true)
    (hip : i.ip_address.isSome = true) (hmask : i.subnet_mask = none) :
    maskless_block i <:+: interfaces_gen ifs := by
  induction ifs with
  | nil => cases hmem
  | cons j rest ih =>
    rcases List.mem_cons.mp hmem with rfl | h
    · obtain ⟨ip, hipe⟩ := Option.isSome_iff_exists.mp hip
      refine ⟨[], interfaces_gen rest, ?_⟩
      simp only [interfaces_gen, hname, Bool.not_true, Bool.false_eq_true, if_false,
        hipe, hmask, maskless_block]
      rfl
    · have hrest := ih h
      obtain ⟨s, t, hst⟩ := hrest
      unfold interfaces_gen
      rcases htr : truthy j.name with _ | _
      · simp only [Bool.not_false, if_true]
        exact ⟨s, t, hst⟩
      · simp only [Bool.not_true, Bool.false_eq_true, if_false]
        refine ⟨("interface " ++ j.name.getD "") ::
          (" description " ++ j.description.getD ("Interface " ++ j.name.getD "")) ::
          (if j.status.getD "down" == "up" then " no shutdown" else " shutdown") ::
          ((match j.ip_address, j.subnet_mask with
            | some ip, some mask => [" ip address " ++ ip ++ " " ++ mask]
            | _, _ => []) ++ ["!"]) ++ s, t, ?_⟩
      
        rw [← hst]
        simp

/-- C2 (amended): in every model, an interface with a (truthy) name, an
`ip_address` present and `subnet_mask` absent gets a validation error
mentioning the subnet mask, while the generator still emits that
interface's `interface <name>` block (description and shutdown state
included) as a contiguous run of lines containing no ` ip address ` line. -/
theorem C2_theorem (m : DeviceModel) (i : InterfaceSpec)
    (hmem : i ∈ m.interfaces) (hname : truthy i.name = true)
    (hip : i.ip_address.isSome = true) (hmask : i.subnet_mask = none) :
    ("Interface " ++ i.name.getD "" ++ ": Subnet mask required when IP is configured")
      ∈ (validate_all m).1 ∧
    maskless_block i <:+: interfaces_gen m.interfaces ∧
    ∀ l ∈ maskless_block i, ¬ (" ip address ".data <+: l.data) := by
  refine ⟨?_, maskless_block_infix m.interfaces i hmem hname hip hmask, ?_⟩
  · unfold validate_all
    simp only [List.mem_append]
    left; left; right
    unfold validate_interfaces
    have hne : ¬ m.interfaces.isEmpty = true := by
      intro he
      rw [List.isEmpty_iff] at he
      rw [he] at hmem
      cases hmem
    simp only [hne, if_false]
    exact subnet_error_mem_check 0 m.interfaces i hmem hname hip hmask
  · intro l hl
    simp only [maskless_block, List.mem_cons, List.not_mem_nil, or_false] at hl
    rcases hl with rfl | rfl | rfl | rfl
    · exact not_prefix_append _ _ _ (by decide) (by decide)
    · exact not_prefix_append _ _ _ (by decide) (by decide)
    · split <;> decide
    · decide

/-- Witness model for C2: a named interface with an IP and no mask. -/
def c2_witness_model : DeviceModel :=
  { device := { hostname := some "r5", ip_address := some "10.3.0.1"
              , device_type := some "cisco_ios" }
  , interfaces := [{ name := some "Gi0/2", description := some "Lab"
                   , status := some "up", ip_address := some "10.3.0.2"
                   , subnet_mask := none }]
  , ospf := { enabled := false, process_id := none, networks := [] }
  , access_lists := [] }

theorem C2_witness :
    ("Interface " ++ "Gi0/2" ++ ": Subnet mask required when IP is configured")
      ∈ (validate_all c2_witness_model).1 ∧
    maskless_block { name := some "Gi0/2", description := some "Lab"
                   , status := some "up", ip_address := some "10.3.0.2"
                   , subnet_mask := none } <:+: interfaces_gen c2_witness_model.interfaces := by
  have h := C2_theorem c2_witness_model
    { name := some "Gi0/2", description := some "Lab", status := some "up"
    , ip_address := some "10.3.0.2", subnet_mask := none }
    (by decide) (by decide) (by decide) (by decide)
  exact ⟨h.1, h.2.1⟩

/-- A model with a *nameless* interface that has an IP and no mask: the
validator still flags the missing subnet mask, but the generator skips the
interface entirely and emits no `interface` block at all. -/
def c2_cex_model : DeviceModel :=
  { device := { hostname := some "r6", ip_address := some "10.4.0.1"
              , device_type := some "cisco_ios" }
  , interfaces := [{ name := none, description := some "stray"
                   , status := some "up", ip_address := some "10.4.0.2"
                   , subnet_mask := none }]
  , ospf := { enabled := false, process_id := none, networks := [] }
  , access_lists := [] }

/-- C2 is false as stated: for the nameless interface of `c2_cex_model` the
validator emits the subnet-mask error, but the generated interface section
contains no lines at all (hence no `interface <name>` block). -/
theorem C2_counterexample :
    ("Interface 0: Subnet mask required when IP is configured")
      ∈ (validate_all c2_cex_model).1 ∧
    interfaces_gen c2_cex_model.interfaces = [] ∧
    generate_interfaces c2_cex_model = "\n" := by
  refine ⟨?_, by decide, by decide⟩
  have : (validate_all c2_cex_model).1 =
      ["Interface 0: name is required",
       "Interface 0: Subnet mask required when IP is configured"] := by decide
  rw [this]
  decide

/-! ## Claim C4 -/

/-- `l` starts with the literal `p`. -/
def line_pre (p l : String) : Bool := p.data.isPrefixOf l.data

lemma line_pre_self (p b : String) : line_pre p (p ++ b) = true := by
  unfold line_pre
  rw [List.isPrefixOf_iff_prefix, String.data_append]
  exact List.prefix_append p.data b.data

lemma line_pre_of_incomparable (p q b : String)
    (h1 : ¬ p.data <+: q.data) (h2 : ¬ q.data <+: p.data) :
    line_pre p (q ++ b) = false := by
  have h := not_prefix_append p q b h1 h2
  unfold line_pre
  rw [← List.isPrefixOf_iff_prefix] at h
  exact Bool.eq_false_iff.mpr h

lemma lp_int_desc (d : String) : line_pre "interface " (" description " ++ d) = false :=
  line_pre_of_incomparable _ _ _ (by decide) (by decide)

lemma lp_int_ip (ip mask : String) :
    line_pre "interface " (" ip address " ++ ip ++ " " ++ mask) = false := by
  rw [String.append_assoc, String.append_assoc]
  exact line_pre_of_incomparable _ _ _ (by decide) (by decide)

lemma interfaces_gen_filter (ifs : List InterfaceSpec) :
    (interfaces_gen ifs).filter (line_pre "interface ") =
      (ifs.filter (fun i => truthy i.name)).map
        (fun i => "interface " ++ i.name.getD "") := by
  induction ifs with
  | nil => rfl
  | cons i rest ih =>
    rcases ht : truthy i.name with _ | _
    · simp only [interfaces_gen, ht, Bool.not_false, if_true, List.filter_cons,
        Bool.false_eq_true, if_false, ih]
    · simp only [interfaces_gen, ht, Bool.not_true, Bool.false_eq_true, if_false,
        List.filter_cons, line_pre_self, lp_int_desc, List.filter_append, if_true]
      rcases hst : i.status.getD "down" == "up" with _ | _
      · simp only [Bool.false_eq_true, if_false]
        have h1 : line_pre "interface " " shutdown" = false := by decide
        have h2 : line_pre "interface " "!" = false := by decide
        rw [h1]
        simp only [Bool.false_eq_true, if_false]
        rcases hip : i.ip_address with _ | ip <;> rcases hmask : i.subnet_mask with _ | mask <;>
          simp [h2, lp_int_ip, ih, ht]
      · simp only [if_true]
        have h1 : line_pre "interface " " no shutdown" = false := by decide
        have h2 : line_pre "interface " "!" = false := by decide
        rw [h1]
        simp only [Bool.false_eq_true, if_false]
        rcases hip : i.ip_address with _ | ip <;> rcases hmask : i.subnet_mask with _ | mask <;>
          simp [h2, lp_int_ip, ih, ht]

/-- The ` network` line of a complete OSPF network entry. -/
def net_line (e : NetworkEntry) : String :=
  " network " ++ e.network.getD "" ++ " " ++ e.wildcard.getD "" ++
  " area " ++ toString (e.area.getD 0)

lemma networks_gen_eq (es : List NetworkEntry) :
    networks_gen es =
      (es.filter (fun e => truthy e.network && truthy e.wildcard && e.area.isSome)).map
        net_line := by
  induction es with
  | nil => rfl
  | cons e rest ih =>
    rcases hc : truthy e.network && truthy e.wildcard && e.area.isSome with _ | _ <;>
      simp [networks_gen, hc, ih, net_line]

lemma lp_net_line (e : NetworkEntry) : line_pre " network " (net_line e) = true := by
  unfold net_line
  rw [String.append_assoc, String.append_assoc, String.append_assoc,
    String.append_assoc]
  exact line_pre_self _ _

lemma ospf_commands_filter (m : DeviceModel) :
    (ospf_commands m).filter (line_pre " network ") =
      (if m.ospf.enabled && truthy m.ospf.process_id then
        (m.ospf.networks.filter
          (fun e => truthy e.network && truthy e.wildcard && e.area.isSome)).map net_line
       else []) := by
  unfold ospf_commands
  rcases he : m.ospf.enabled with _ | _
  · simp
  · rcases hp : truthy m.ospf.process_id with _ | _
    · simp [hp]
    · simp only [hp, Bool.not_true, Bool.false_eq_true, if_false, if_true, Bool.and_self]
      rw [List.filter_cons]
      have hhead : line_pre " network " ("router ospf " ++ m.ospf.process_id.getD "") = false :=
        line_pre_of_incomparable _ _ _ (by decide) (by decide)
      rw [hhead]
      simp only [Bool.false_eq_true, if_false, List.filter_append]
      rw [networks_gen_eq]
      have hall : ((m.ospf.networks.filter
          (fun e => truthy e.network && truthy e.wildcard && e.area.isSome)).map
            net_line).filter (line_pre " network ") =
          (m.ospf.networks.filter
            (fun e => truthy e.network && truthy e.wildcard && e.area.isSome)).map
              net_line := by
        apply List.filter_eq_self.mpr
        intro a ha
        obtain ⟨e, _, rfl⟩ := List.mem_map.mp ha
        exact lp_net_line e
      rw [hall]
      have hbang : List.filter (line_pre " network ") ["!"] = [] := by decide
      rw [hbang, List.append_nil]

/-- The `access-list` line of a complete rule of the extended ACL `n`. -/
def rule_line (n : String) (r : AclRule) : String :=
  "access-list " ++ n ++ " " ++ r.action.getD "" ++ " " ++ r.protocol.getD "" ++ " " ++
  r.source.getD "" ++ " " ++ r.source_wildcard.getD "0.0.0.0" ++ " " ++
  r.destination.getD "any" ++
  (if truthy r.destination_port then " eq " ++ r.destination_port.getD "" else "")

lemma rules_gen_extended (n : String) (rs : List AclRule) :
    rules_gen n "extended" rs =
      (rs.filter (fun r => truthy r.action && truthy r.protocol && truthy r.source)).map
        (rule_line n) := by
  induction rs with
  | nil => rfl
  | cons r rest ih =>
    rcases hc : truthy r.action && truthy r.protocol && truthy r.source with _ | _ <;>
      simp [rules_gen, hc, ih, rule_line]

lemma acls_gen_eq (acls : List AclSpec) :
    acls_gen acls =
      acls.flatMap (fun acl =>
        if truthy acl.name && truthy acl.type then
          rules_gen (acl.name.getD "") (acl.type.getD "") acl.rules
        else []) := by
  induction acls with
  | nil => rfl
  | cons acl rest ih =>
    rcases hn : truthy acl.name with _ | _ <;> rcases ht : truthy acl.type with _ | _ <;>
      simp [acls_gen, hn, ht, ih]

/-- C4 (confirmed): generation preserves input order end-to-end — the
`interface` header lines of the generated interface section are exactly the
input interfaces (those with a truthy name) in input order; the ` network`
lines of the OSPF section are exactly the complete network entries in input
order; the ACL section is the in-order concatenation of the per-ACL line
lists, and within one extended ACL the `access-list` lines are exactly the
complete rules in input order. -/
theorem C4_theorem (m : DeviceModel) :
    ((interfaces_gen m.interfaces).filter (line_pre "interface ") =
      (m.interfaces.filter (fun i => truthy i.name)).map
        (fun i => "interface " ++ i.name.getD "")) ∧
    ((ospf_commands m).filter (line_pre " network ") =
      (if m.ospf.enabled && truthy m.ospf.process_id then
        (m.ospf.networks.filter
          (fun e => truthy e.network && truthy e.wildcard && e.area.isSome)).map net_line
       else [])) ∧
    (acls_gen m.access_lists =
      m.access_lists.flatMap (fun acl =>
        if truthy acl.name && truthy acl.type then
          rules_gen (acl.name.getD "") (acl.type.getD "") acl.rules
        else [])) ∧
    (∀ acl ∈ m.access_lists, acl.type = some "extended" →
      rules_gen (acl.name.getD "") "extended" acl.rules =
        (acl.rules.filter
          (fun r => truthy r.action && truthy r.protocol && truthy r.source)).map
          (rule_line (acl.name.getD ""))) :=
  ⟨interfaces_gen_filter m.interfaces, ospf_commands_filter m,
   acls_gen_eq m.access_lists,
   fun acl _ _ => rules_gen_extended (acl.name.getD "") acl.rules⟩

/-- The extended ACL of the C4 witness model: two complete rules around an
incomplete one. -/
def c4_acl : AclSpec :=
  { name := some "EDGE", type := some "extended"
  , rules := [{ action := some "permit", protocol := some "tcp"
              , source := some "10.9.1.0", source_wildcard := some "0.0.0.255"
              , destination := some "any", destination_port := some "443" },
              { action := some "deny", protocol := none, source := some "any"
              , source_wildcard := none, destination := none, destination_port := none },
              { action := some "deny", protocol := some "ip", source := some "any"
              , source_wildcard := none, destination := none, destination_port := none }] }

def c4_witness_model : DeviceModel :=
  { device := { hostname := some "agg1", ip_address := some "10.9.0.1"
              , device_type := some "cisco_ios" }
  , interfaces :=
      [{ name := some "Gi0/0", description := some "A", status := some "up"
       , ip_address := some "10.9.1.1", subnet_mask := some "255.255.255.0" },
       { name := none, description := some "skipped", status := some "down"
       , ip_address := none, subnet_mask := none },
       { name := some "Gi0/1", description := some "B", status := some "down"
       , ip_address := none, subnet_mask := none }]
  , ospf := { enabled := true, process_id := some "10"
            , networks :=
                [{ network := some "10.9.1.0", wildcard := some "0.0.0.255", area := some 0 },
                 { network := none, wildcard := some "0.0.0.255", area := some 1 },
                 { network := some "10.9.2.0", wildcard := some "0.0.0.255", area := some 1 }] }
  , access_lists := [c4_acl] }

theorem C4_witness :
    (interfaces_gen c4_witness_model.interfaces).filter (line_pre "interface ") =
      ["interface Gi0/0", "interface Gi0/1"] ∧
    (ospf_commands c4_witness_model).filter (line_pre " network ") =
      [" network 10.9.1.0 0.0.0.255 area 0", " network 10.9.2.0 0.0.0.255 area 1"] ∧
    rules_gen (c4_acl.name.getD "") "extended" c4_acl.rules =
      ["access-list EDGE permit tcp 10.9.1.0 0.0.0.255 any eq 443",
       "access-list EDGE deny ip any 0.0.0.0 any"] := by
  have h := C4_theorem c4_witness_model
  refine ⟨?_, ?_, ?_⟩
  · rw [h.1]
    decide
  · rw [h.2.1]
    decide
  · rw [h.2.2.2 c4_acl (by decide) rfl]
    decide

/-! ## Claim C5 -/

lemma append_newline_ne_empty (s : String) : s ++ "\n" ≠ "" := by
  intro h
  have hd := congrArg String.data h
  rw [String.data_append] at hd
  simp at hd

/-- C5 (amended): the generated OSPF section is non-empty iff `ospf.enabled`
is true and `process_id` is *truthy* (present and non-empty — the code tests
truthiness, not mere presence); when emitted, the command list is exactly
`router ospf <pid>`, one ` network <net> <wildcard> area <area>` line per
entry whose `network` and `wildcard` are truthy and whose `area` is present
(entries failing this are skipped individually), terminated by `!`. -/
theorem C5_theorem (m : DeviceModel) :
    (generate_ospf m ≠ "" ↔
      (m.ospf.enabled = true ∧ truthy m.ospf.process_id = true)) ∧
    (m.ospf.enabled = true → truthy m.ospf.process_id = true →
      ospf_commands m =
        ("router ospf " ++ m.ospf.process_id.getD "") ::
          ((m.ospf.networks.filter
            (fun e => truthy e.network && truthy e.wildcard && e.area.isSome)).map
              net_line ++ ["!"])) := by
  constructor
  · constructor
    · intro hne
      by_contra hcon
      apply hne
      unfold generate_ospf ospf_commands
      rcases he : m.ospf.enabled with _ | _
      · simp
      · rcases hp : truthy m.ospf.process_id with _ | _
        · simp [hp]
        · exact absurd ⟨he, hp⟩ hcon
    · rintro ⟨he, hp⟩
      unfold generate_ospf ospf_commands
      rw [he, hp]
      simp only [Bool.not_true, Bool.false_eq_true, if_false, if_true,
        List.isEmpty_cons]
      exact append_newline_ne_empty _
  · intro he hp
    unfold ospf_commands
    rw [he, hp]
    simp only [Bool.not_true, Bool.false_eq_true, if_false, if_true]
    rw [networks_gen_eq]

/-- Witness model for C5: OSPF enabled with process id 1, one complete
network entry and one entry with a missing wildcard (skipped). -/
def c5_witness_model : DeviceModel :=
  { device := { hostname := some "r7", ip_address := some "10.5.0.1"
              , device_type := some "cisco_ios" }
  , interfaces := []
  , ospf := { enabled := true, process_id := some "1"
            , networks :=
                [{ network := some "10.5.0.0", wildcard := some "0.0.0.255", area := some 0 },
                 { network := some "10.5.1.0", wildcard := none, area := some 1 }] }
  , access_lists := [] }

theorem C5_witness :
    generate_ospf c5_witness_model ≠ "" ∧
    ospf_commands c5_witness_model =
      ["router ospf 1", " network 10.5.0.0 0.0.0.255 area 0", "!"] := by
  have h := C5_theorem c5_witness_model
  refine ⟨h.1.mpr ⟨rfl, by decide⟩, ?_⟩
  rw [h.2 rfl (by decide)]
  decide

/-- A model with OSPF enabled and a *present but empty* process id: the
claim's "process_id is present" reading says the section should be emitted,
but the code tests truthiness and suppresses it. -/
def c5_cex_model : DeviceModel :=
  { device := { hostname := some "r8", ip_address := some "10.6.0.1"
              , device_type := some "cisco_ios" }
  , interfaces := []
  , ospf := { enabled := true, process_id := some ""
            , networks :=
                [{ network := some "10.6.0.0", wildcard := some "0.0.0.255", area := some 0 }] }
  , access_lists := [] }

/-- C5 is false as stated: in `c5_cex_model` OSPF is enabled and
`process_id` is present, yet the generated OSPF section is empty. -/
theorem C5_counterexample :
    c5_cex_model.ospf.enabled = true ∧
    c5_cex_model.ospf.process_id.isSome = true ∧
    generate_ospf c5_cex_model = "" := by
  decide

/-! ## Claim C10 -/

lemma truthy_of_valid_getD (o : Option String)
    (h : validate_ip_address (o.getD "") = true) : truthy o = true := by
  rcases ho : o with _ | s
  · rw [ho] at h
    rw [Option.getD_none] at h
    rw [validate_ip_empty] at h
    cases h
  · rw [ho] at h
    rw [Option.getD_some] at h
    exact truthy_of_valid_ip rfl h

/-- C10 (confirmed): an OSPF network entry whose `area` is the integer 0 is
treated as fully specified — when OSPF is enabled with a truthy process id
the generator emits its ` network <net> <wildcard> area 0` line (area is
tested for presence, not truthiness), and the validator's per-entry check
contributes no error when `network` and `wildcard` are valid addresses. -/
theorem C10_theorem (m : DeviceModel) (e : NetworkEntry) (idx : Nat)
    (hmem : e ∈ m.ospf.networks) (harea : e.area = some 0)
    (hnet : validate_ip_address (e.network.getD "") = true)
    (hwc : validate_ip_address (e.wildcard.getD "") = true) :
    (m.ospf.enabled = true → truthy m.ospf.process_id = true →
      (" network " ++ e.network.getD "" ++ " " ++ e.wildcard.getD "" ++ " area 0")
        ∈ ospf_commands m) ∧
    network_findings idx e = [] := by
  have htn : truthy e.network = true := truthy_of_valid_getD _ hnet
  have htw : truthy e.wildcard = true := truthy_of_valid_getD _ hwc
  constructor
  · intro he hp
    have hline : net_line e =
        " network " ++ e.network.getD "" ++ " " ++ e.wildcard.getD "" ++ " area 0" := by
      unfold net_line
      rw [harea]
      rw [String.append_assoc]
      rfl
    unfold ospf_commands
    rw [he, hp]
    simp only [Bool.not_true, Bool.false_eq_true, if_false, if_true]
    rw [networks_gen_eq, ← hline]
    refine List.mem_cons_of_mem _ (List.mem_append_left _ ?_)
    exact List.mem_map_of_mem net_line
      (List.mem_filter.mpr ⟨hmem, by rw [htn, htw, harea]; rfl⟩)
  · exact network_findings_nil idx e hnet hwc (by rw [harea]; rfl)

/-- Witness model for C10: area 0 entry with valid addresses. -/
def c10_witness_model : DeviceModel :=
  { device := { hostname := some "r9", ip_address := some "10.7.0.1"
              , device_type := some "cisco_ios" }
  , interfaces := []
  , ospf := { enabled := true, process_id := some "7"
            , networks :=
                [{ network := some "10.7.0.0", wildcard := some "0.0.0.255", area := some 0 }] }
  , access_lists := [] }

theorem C10_witness :
    (" network " ++ "10.7.0.0" ++ " " ++ "0.0.0.255" ++ " area 0")
      ∈ ospf_commands c10_witness_model ∧
    network_findings 0 { network := some "10.7.0.0", wildcard := some "0.0.0.255"
                       , area := some 0 } = [] := by
  have h := C10_theorem c10_witness_model
    { network := some "10.7.0.0", wildcard := some "0.0.0.255", area := some 0 } 0
    (by decide) rfl (by decide) (by decide)
  exact ⟨h.1 rfl (by decide), h.2⟩

/-! ## Claim C9 -/

/-- C9 (amended): username and password are resolved environment-first with
the device model's credentials as fallback, but the enable secret is
resolved environment-first with the **empty string** as fallback — the
device model embeds no enable secret and none of its values is consulted. -/
theorem C9_theorem (env : String → Option String) (d : DeployDevice) :
    (∀ u, env "NETWORK_USERNAME" = some u → (connect_params env d).username = u) ∧
    (env "NETWORK_USERNAME" = none →
      (connect_params env d).username = d.credentials.username) ∧
    (∀ p, env "NETWORK_PASSWORD" = some p → (connect_params env d).password = p) ∧
    (env "NETWORK_PASSWORD" = none →
      (connect_params env d).password = d.credentials.password) ∧
    (∀ s, env "NETWORK_ENABLE_PASSWORD" = some s → (connect_params env d).secret = s) ∧
    (env "NETWORK_ENABLE_PASSWORD" = none → (connect_params env d).secret = "") ∧
    (connect_params env d).device_type = d.device_type ∧
    (connect_params env d).host = d.ip_address := by
  refine ⟨?_, ?_, ?_, ?_, ?_, ?_, rfl, rfl⟩
  · intro u hu
    simp [connect_params, getenv, hu]
  · intro hu
    simp [connect_params, getenv, hu]
  · intro p hp
    simp [connect_params, getenv, hp]
  · intro hp
    simp [connect_params, getenv, hp]
  · intro s hs
    simp [connect_params, getenv, hs]
  · intro hs
    simp [connect_params, getenv, hs]

/-- An environment with no overrides set. -/
def c9_env : String → Option String := fun _ => none

def c9_device : DeployDevice :=
  { device_type := "cisco_ios", ip_address := "10.8.0.1", hostname := "r10"
  , credentials := { username := "admin", password := "pw" } }

/-- C9 is false as stated: with no environment overrides, the spec-described
resolution (enable secret falls back to a model-embedded value) differs from
the code, whose enable secret falls back to the empty string. -/
theorem C9_counterexample :
    connect_params_spec c9_env c9_device "model-secret" ≠ connect_params c9_env c9_device ∧
    (connect_params c9_env c9_device).secret = "" ∧
    (connect_params_spec c9_env c9_device "model-secret").secret = "model-secret" := by
  refine ⟨?_, rfl, rfl⟩
  intro h
  exact absurd (congrArg DeviceParams.secret h) (by decide)

/-- An environment overriding only the username. -/
def c9_witness_env : String → Option String :=
  fun k => if k = "NETWORK_USERNAME" then some "ops" else none

def c9_witness_device : DeployDevice :=
  { device_type := "cisco_ios", ip_address := "10.8.0.2", hostname := "r11"
  , credentials := { username := "local-admin", password := "local-pw" } }

theorem C9_witness :
    (connect_params c9_witness_env c9_witness_device).username = "ops" ∧
    (connect_params c9_witness_env c9_witness_device).password = "local-pw" ∧
    (connect_params c9_witness_env c9_witness_device).secret = "" := by
  obtain ⟨h1, h2, h3, h4, h5, h6, h7, h8⟩ := C9_theorem c9_witness_env c9_witness_device
  exact ⟨h1 "ops" rfl, h4 rfl, h6 rfl⟩

/-! ## Dynamic layer: raw Python/YAML values

`PyVal` models the values `yaml.safe_load` can produce; the operations
return `Except String` so that a raised Python exception (`TypeError`,
`AttributeError`, `KeyError`) is visible as data. -/

inductive PyVal where
  | none
  | bool (b : Bool)
  | int (n : Int)
  | str (s : String)
  | list (xs : List PyVal)
  | dict (kvs : List (String × PyVal))
deriving Repr

/-- Python truthiness. -/
def pyTruthy : PyVal → Bool
  | .none => false
  | .bool b => b
  | .int n => n != 0
  | .str s => s != ""
  | .list xs => !xs.isEmpty
  | .dict kvs => !kvs.isEmpty

/-- Python `v == <string literal>`: strings compare by value, any other
type compares unequal (no exception). -/
def pyEqS (v : PyVal) (s : String) : Bool :=
  match v with
  | .str t => t == s
  | _ => false

/-- Python `v is None`. -/
def pyIsNone : PyVal → Bool
  | .none => true
  | _ => false

mutual
/-- Python `repr`, used by `str()` on containers. -/
def pyRepr : PyVal → String
  | .none => "None"
  | .bool true => "True"
  | .bool false => "False"
  | .int n => toString n
  | .str s => "\x27" ++ s ++ "\x27"
  | .list xs => "[" ++ pyReprList xs ++ "]"
  | .dict kvs => "\x7b" ++ pyReprDict kvs ++ "\x7d"

def pyReprList : List PyVal → String
  | [] => ""
  | [x] => pyRepr x
  | x :: y :: xs => pyRepr x ++ ", " ++ pyReprList (y :: xs)

def pyReprDict : List (String × PyVal) → String
  | [] => ""
  | [kv] => "\x27" ++ kv.1 ++ "\x27: " ++ pyRepr kv.2
  | kv :: kv2 :: kvs => "\x27" ++ kv.1 ++ "\x27: " ++ pyRepr kv.2 ++ ", " ++
      pyReprDict (kv2 :: kvs)
end

/-- Python `str(v)` / f-string conversion. -/
def pyStr : PyVal → String
  | .str s => s
  | v => pyRepr v

/-- Python `v.get(k, d)`: only dicts have `.get`; any other receiver raises
`AttributeError`. -/
def pyGet (v : PyVal) (k : String) (d : PyVal) : Except String PyVal :=
  match v with
  | .dict kvs =>
    .ok (match kvs.find? (fun kv => kv.1 == k) with
         | some kv => kv.2
         | _ => d)
  | _ => .error "AttributeError"

/-- Python `v[k]` for a string key: dict lookup (`KeyError` when absent),
`TypeError` on any other receiver. -/
def pySub (v : PyVal) (k : String) : Except String PyVal :=
  match v with
  | .dict kvs =>
    match kvs.find? (fun kv => kv.1 == k) with
    | some kv => .ok kv.2
    | _ => .error "KeyError"
  | _ => .error "TypeError"

/-- Python `k in v` for a string `k`: key test on dicts, substring test on
strings, membership on lists; `TypeError` otherwise. -/
def pyContains (v : PyVal) (k : String) : Except String Bool :=
  match v with
  | .dict kvs => .ok (kvs.any (fun kv => kv.1 == k))
  | .str s => .ok (decide (k.data <:+: s.data))
  | .list xs => .ok (xs.any (fun x => pyEqS x k))
  | _ => .error "TypeError"

/-- Python iteration: lists yield elements, strings yield one-character
strings, dicts yield their keys; any other value raises `TypeError`. -/
def pyIter : PyVal → Except String (List PyVal)
  | .list xs => .ok xs
  | .str s => .ok (s.data.map (fun c => .str (String.mk [c])))
  | .dict kvs => .ok (kvs.map (fun kv => .str kv.1))
  | _ => .error "TypeError"

/-- `ConfigValidator.validate_ip_address` on a raw value: `re.match`
requires a string and raises `TypeError` otherwise. -/
def validate_ip_address_dyn (ip : PyVal) : Except String Bool :=
  match ip with
  | .str s => .ok (validate_ip_address s)
  | _ => .error "TypeError"

/-- `ConfigValidator.validate_subnet_mask` on a raw value. -/
def validate_subnet_mask_dyn (mask : PyVal) : Except String Bool :=
  validate_ip_address_dyn mask

/-! ## Dynamic embedding of `ConfigValidator` -/

/-- `ConfigValidator.validate_device_info` on a raw config. -/
def validate_device_info_dyn (config : PyVal) : Except String (List String × List String) := do
  let device ← pyGet config "device" (.dict [])
  let hostname ← pyGet device "hostname" .none
  let e1 := if !pyTruthy hostname then ["Device hostname is required"] else []
  let ipv ← pyGet device "ip_address" .none
  let e2 ← if !pyTruthy ipv then pure ["Device IP address is required"]
    else do
      let ipsub ← pySub device "ip_address"
      let ok ← validate_ip_address_dyn ipsub
      pure (if !ok then ["Invalid IP address: " ++ pyStr ipsub] else [])
  let dt ← pyGet device "device_type" .none
  let w := if !pyTruthy dt then ["Device type not specified, defaulting to cisco_ios"] else []
  pure (e1 ++ e2, w)

/-- The loop body of `ConfigValidator.validate_interfaces` on a raw
interface value. -/
def interface_findings_dyn (idx : Nat) (interface : PyVal) : Except String (List String) := do
  let name ← pyGet interface "name" .none
  let e1 := if !pyTruthy name then ["Interface " ++ toString idx ++ ": name is required"] else []
  let label ← pyGet interface "name" (.int (Int.ofNat idx))
  let desc ← pyGet interface "description" .none
  let e2 := if !pyTruthy desc
    then ["Interface " ++ pyStr label ++ ": description is required"] else []
  let st ← pyGet interface "status" .none
  let e3 := if !pyTruthy st
    then ["Interface " ++ pyStr label ++ ": status is required"] else []
  let hasIp ← pyContains interface "ip_address"
  let e4 ← if hasIp then do
      let ip ← pySub interface "ip_address"
      let ok ← validate_ip_address_dyn ip
      let e4a := if !ok
        then ["Interface " ++ pyStr label ++ ": Invalid IP address " ++ pyStr ip] else []
      let hasMask ← pyContains interface "subnet_mask"
      let e4b ← if !hasMask
        then pure ["Interface " ++ pyStr label ++ ": Subnet mask required when IP is configured"]
        else do
          let mk ← pySub interface "subnet_mask"
          let ok2 ← validate_subnet_mask_dyn mk
          pure (if !ok2 then ["Interface " ++ pyStr label ++ ": Invalid subnet mask"] else [])
      pure (e4a ++ e4b)
    else pure []
  pure (e1 ++ e2 ++ e3 ++ e4)

/-- The enumerated interface loop on raw values. -/
def interfaces_check_dyn : Nat → List PyVal → Except String (List String)
  | _, [] => .ok []
  | idx, x :: rest => do
    let e ← interface_findings_dyn idx x
    let es ← interfaces_check_dyn (idx + 1) rest
    pure (e ++ es)

/-- `ConfigValidator.validate_interfaces` on a raw config. -/
def validate_interfaces_dyn (config : PyVal) : Except String (List String × List String) := do
  let interfaces ← pyGet config "interfaces" (.list [])
  if !pyTruthy interfaces then pure ([], ["No interfaces configured"])
  else do
    let items ← pyIter interfaces
    let es ← interfaces_check_dyn 0 items
    pure (es, [])

/-- The loop body of `ConfigValidator.validate_routing` on a raw network
entry. -/
def network_findings_dyn (idx : Nat) (network : PyVal) : Except String (List String) := do
  let net ← pyGet network "network" (.str "")
  let ok1 ← validate_ip_address_dyn net
  let e1 := if !ok1 then ["OSPF network " ++ toString idx ++ ": Invalid network address"] else []
  let wc ← pyGet network "wildcard" (.str "")
  let ok2 ← validate_ip_address_dyn wc
  let e2 := if !ok2 then ["OSPF network " ++ toString idx ++ ": Invalid wildcard mask"] else []
  let area ← pyGet network "area" .none
  let e3 := if pyIsNone area then ["OSPF network " ++ toString idx ++ ": Area is required"] else []
  pure (e1 ++ e2 ++ e3)

/-- The enumerated network loop on raw values. -/
def networks_check_dyn : Nat → List PyVal → Except String (List String)
  | _, [] => .ok []
  | idx, x :: rest => do
    let e ← network_findings_dyn idx x
    let es ← networks_check_dyn (idx + 1) rest
    pure (e ++ es)

/-- `ConfigValidator.validate_routing` on a raw config. -/
def validate_routing_dyn (config : PyVal) : Except String (List String × List String) := do
  let routing ← pyGet config "routing" (.dict [])
  let ospf ← pyGet routing "ospf" (.dict [])
  let enabled ← pyGet ospf "enabled" (.bool false)
  if pyTruthy enabled then do
    let pid ← pyGet ospf "process_id" .none
    let e1 := if !pyTruthy pid then ["OSPF process ID is required when OSPF is enabled"] else []
    let networks ← pyGet ospf "networks" (.list [])
    let w := if !pyTruthy networks then ["OSPF enabled but no networks configured"] else []
    let items ← pyIter networks
    let es ← networks_check_dyn 0 items
    pure (e1 ++ es, w)
  else pure ([], [])

/-- The rule-loop body of `ConfigValidator.validate_security` on a raw rule
value, for the ACL labelled `label`. -/
def rule_findings_dyn (label : String) (rule : PyVal) : Except String (List String × List String) := do
  let action ← pyGet rule "action" .none
  let e1 := if !(pyEqS action "permit" || pyEqS action "deny")
    then ["ACL " ++ label ++ ": Rule action must be \x27permit\x27 or \x27deny\x27"] else []
  let proto ← pyGet rule "protocol" .none
  let e2 := if !pyTruthy proto then ["ACL " ++ label ++ ": Rule protocol is required"] else []
  let w := if pyTruthy proto &&
      !(pyEqS proto "tcp" || pyEqS proto "udp" || pyEqS proto "ip" || pyEqS proto "icmp")
    then ["ACL " ++ label ++ ": Uncommon protocol " ++ pyStr proto] else []
  let src ← pyGet rule "source" .none
  let e3 := if !pyTruthy src then ["ACL " ++ label ++ ": Rule source is required"] else []
  pure (e1 ++ e2 ++ e3, w)

/-- The rule loop on raw values. -/
def rules_check_dyn (label : String) : List PyVal → Except String (List String × List String)
  | [] => .ok ([], [])
  | x :: rest => do
    let f ← rule_findings_dyn label x
    let fs ← rules_check_dyn label rest
    pure (f.1 ++ fs.1, f.2 ++ fs.2)

/-- The ACL-loop body of `ConfigValidator.validate_security` on a raw ACL
value. -/
def acl_findings_dyn (acl : PyVal) : Except String (List String × List String) := do
  let nm ← pyGet acl "name" .none
  let e1 := if !pyTruthy nm then ["ACL name is required"] else []
  let label := pyStr nm
  let ty ← pyGet acl "type" .none
  let e2 := if !(pyEqS ty "standard" || pyEqS ty "extended")
    then ["ACL " ++ label ++ ": Type must be \x27standard\x27 or \x27extended\x27"] else []
  let rulesv ← pyGet acl "rules" (.list [])
  let items ← pyIter rulesv
  let rf ← rules_check_dyn label items
  pure (e1 ++ e2 ++ rf.1, rf.2)

/-- The ACL loop on raw values. -/
def acls_check_dyn : List PyVal → Except String (List String × List String)
  | [] => .ok ([], [])
  | x :: rest => do
    let f ← acl_findings_dyn x
    let fs ← acls_check_dyn rest
    pure (f.1 ++ fs.1, f.2 ++ fs.2)

/-- `ConfigValidator.validate_security` on a raw config. -/
def validate_security_dyn (config : PyVal) : Except String (List String × List String) := do
  let security ← pyGet config "security" (.dict [])
  let acls ← pyGet security "access_lists" (.list [])
  let items ← pyIter acls
  acls_check_dyn items

/-- `ConfigValidator.validate_all` on a raw config: the four checks in call
order, errors and warnings accumulating. -/
def validate_all_dyn (config : PyVal) : Except String (List String × List String) := do
  let r1 ← validate_device_info_dyn config
  let r2 ← validate_interfaces_dyn config
  let r3 ← validate_routing_dyn config
  let r4 ← validate_security_dyn config
  pure (r1.1 ++ r2.1 ++ r3.1 ++ r4.1, r1.2 ++ r2.2 ++ r3.2 ++ r4.2)

/-! ## Dynamic embedding of `ConfigGenerator` -/

/-- `ConfigGenerator.generate_hostname` on a raw config. -/
def generate_hostname_dyn (config : PyVal) : Except String String := do
  let device ← pyGet config "device" (.dict [])
  let hostname ← pyGet device "hostname" (.str "default-hostname")
  pure ("hostname " ++ pyStr hostname ++ "\n")

/-- The loop body of `ConfigGenerator.generate_interfaces` on a raw
interface value. -/
def interface_block_dyn (interface : PyVal) : Except String (List String) := do
  let name ← pyGet interface "name" .none
  if !pyTruthy name then pure []
  else do
    let desc ← pyGet interface "description" (.str ("Interface " ++ pyStr name))
    let st ← pyGet interface "status" (.str "down")
    let stLine := if pyEqS st "up" then " no shutdown" else " shutdown"
    let hasIp ← pyContains interface "ip_address"
    let hasMask ← pyContains interface "subnet_mask"
    let ipLines ← if hasIp && hasMask then do
        let ip ← pySub interface "ip_address"
        let mk ← pySub interface "subnet_mask"
        pure [" ip address " ++ pyStr ip ++ " " ++ pyStr mk]
      else pure ([] : List String)
    pure (("interface " ++ pyStr name) :: (" description " ++ pyStr desc) ::
      stLine :: (ipLines ++ ["!"]))

/-- The interface loop on raw values. -/
def interfaces_gen_dyn : List PyVal → Except String (List String)
  | [] => .ok []
  | x :: rest => do
    let b ← interface_block_dyn x
    let bs ← interfaces_gen_dyn rest
    pure (b ++ bs)

/-- `ConfigGenerator.generate_interfaces` on a raw config. -/
def generate_interfaces_dyn (config : PyVal) : Except String String := do
  let interfaces ← pyGet config "interfaces" (.list [])
  let items ← pyIter interfaces
  let cmds ← interfaces_gen_dyn items
  pure (String.intercalate "\n" cmds ++ "\n")

/-- The network loop body of `ConfigGenerator.generate_ospf` on a raw
entry. -/
def network_line_dyn (network : PyVal) : Except String (List String) := do
  let net ← pyGet network "network" .none
  let wc ← pyGet network "wildcard" .none
  let area ← pyGet network "area" .none
  if pyTruthy net && pyTruthy wc && !pyIsNone area then
    pure [" network " ++ pyStr net ++ " " ++ pyStr wc ++ " area " ++ pyStr area]
  else pure []

/-- The network loop on raw values. -/
def networks_gen_dyn : List PyVal → Except String (List String)
  | [] => .ok []
  | x :: rest => do
    let l ← network_line_dyn x
    let ls ← networks_gen_dyn rest
    pure (l ++ ls)

/-- `ConfigGenerator.generate_ospf` on a raw config. -/
def generate_ospf_dyn (config : PyVal) : Except String String := do
  let routing ← pyGet config "routing" (.dict [])
  let ospf ← pyGet routing "ospf" (.dict [])
  let enabled ← pyGet ospf "enabled" (.bool false)
  if pyTruthy enabled then do
    let pid ← pyGet ospf "process_id" .none
    if !pyTruthy pid then pure ""
    else do
      let networks ← pyGet ospf "networks" (.list [])
      let items ← pyIter networks
      let lines ← networks_gen_dyn items
      pure (String.intercalate "\n" (("router ospf " ++ pyStr pid) :: (lines ++ ["!"])) ++ "\n")
  else pure ""

/-- The rule loop body of `ConfigGenerator.generate_acl` on a raw rule. -/
def rule_line_dyn (aclName : String) (aclType : PyVal) (rule : PyVal) :
    Except String (List String) := do
  let action ← pyGet rule "action" .none
  let proto ← pyGet rule "protocol" .none
  let src ← pyGet rule "source" .none
  if !(pyTruthy action && pyTruthy proto && pyTruthy src) then pure []
  else do
    let swc ← pyGet rule "source_wildcard" (.str "0.0.0.0")
    let dst ← pyGet rule "destination" (.str "any")
    let dport ← pyGet rule "destination_port" .none
    if pyEqS aclType "extended" then
      pure ["access-list " ++ aclName ++ " " ++ pyStr action ++ " " ++ pyStr proto ++ " " ++
        pyStr src ++ " " ++ pyStr swc ++ " " ++ pyStr dst ++
        (if pyTruthy dport then " eq " ++ pyStr dport else "")]
    else pure []

/-- The rule loop on raw values. -/
def rules_gen_dyn (aclName : String) (aclType : PyVal) :
    List PyVal → Except String (List String)
  | [] => .ok []
  | x :: rest => do
    let l ← rule_line_dyn aclName aclType x
    let ls ← rules_gen_dyn aclName aclType rest
    pure (l ++ ls)

/-- The ACL loop body of `ConfigGenerator.generate_acl` on a raw ACL. -/
def acl_block_dyn (acl : PyVal) : Except String (List String) := do
  let nm ← pyGet acl "name" .none
  let ty ← pyGet acl "type" .none
  if !pyTruthy nm || !pyTruthy ty then pure []
  else do
    let rulesv ← pyGet acl "rules" (.list [])
    let items ← pyIter rulesv
    rules_gen_dyn (pyStr nm) ty items

/-- The ACL loop on raw values. -/
def acls_gen_dyn : List PyVal → Except String (List String)
  | [] => .ok []
  | x :: rest => do
    let b ← acl_block_dyn x
    let bs ← acls_gen_dyn rest
    pure (b ++ bs)

/-- `ConfigGenerator.generate_acl` on a raw config. -/
def generate_acl_dyn (config : PyVal) : Except String String := do
  let security ← pyGet config "security" (.dict [])
  let acls ← pyGet security "access_lists" (.list [])
  let items ← pyIter acls
  let cmds ← acls_gen_dyn items
  pure (if cmds.isEmpty then "" else String.intercalate "\n" cmds ++ "\n")

/-- `ConfigGenerator.generate_full_config` on a raw config. -/
def generate_full_config_dyn (config : PyVal) : Except String String := do
  let device ← pyGet config "device" (.dict [])
  let hostname ← pyGet device "hostname" (.str "Unknown-Device")
  let h ← generate_hostname_dyn config
  let i ← generate_interfaces_dyn config
  let o ← generate_ospf_dyn config
  let a ← generate_acl_dyn config
  pure (String.intercalate "\n"
    ["! Generated Configuration", "! Device: " ++ pyStr hostname, "!", h, i, o, a, "end"])

/-! ## Encoding the typed model into raw values -/

/-- Encode an optional string field: an absent field is an absent key. -/
def encodeOptStr (k : String) (o : Option String) : List (String × PyVal) :=
  match o with
  | some s => [(k, .str s)]
  | _ => []

def encodeDevice (d : DeviceInfo) : PyVal :=
  .dict (encodeOptStr "hostname" d.hostname ++ encodeOptStr "ip_address" d.ip_address ++
         encodeOptStr "device_type" d.device_type)

def encodeInterface (i : InterfaceSpec) : PyVal :=
  .dict (encodeOptStr "name" i.name ++ encodeOptStr "description" i.description ++
         encodeOptStr "status" i.status ++ encodeOptStr "ip_address" i.ip_address ++
         encodeOptStr "subnet_mask" i.subnet_mask)

def encodeNetwork (e : NetworkEntry) : PyVal :=
  .dict (encodeOptStr "network" e.network ++ encodeOptStr "wildcard" e.wildcard ++
         (match e.area with
          | some n => [("area", PyVal.int n)]
          | _ => []))

def encodeRule (r : AclRule) : PyVal :=
  .dict (encodeOptStr "action" r.action ++ encodeOptStr "protocol" r.protocol ++
         encodeOptStr "source" r.source ++ encodeOptStr "source_wildcard" r.source_wildcard ++
         encodeOptStr "destination" r.destination ++
         encodeOptStr "destination_port" r.destination_port)

def encodeAcl (a : AclSpec) : PyVal :=
  .dict (encodeOptStr "name" a.name ++ encodeOptStr "type" a.type ++
         [("rules", PyVal.list (a.rules.map encodeRule))])

def encodeOspf (o : OspfSpec) : PyVal :=
  .dict (("enabled", PyVal.bool o.enabled) :: encodeOptStr "process_id" o.process_id ++
         [("networks", PyVal.list (o.networks.map encodeNetwork))])

/-- Encode a typed device model as the raw YAML document it denotes. -/
def encodeConfig (m : DeviceModel) : PyVal :=
  .dict [("device", encodeDevice m.device),
         ("interfaces", PyVal.list (m.interfaces.map encodeInterface)),
         ("routing", PyVal.dict [("ospf", encodeOspf m.ospf)]),
         ("security", PyVal.dict [("access_lists", PyVal.list (m.access_lists.map encodeAcl))])]

/-! ## Refinement: on encoded (string-typed) models the dynamic layer never
raises and computes exactly the typed layer's result -/

lemma pyRepr_natCast (n : Nat) : pyRepr (PyVal.int (n : Int)) = toString n := rfl

lemma validate_device_info_dyn_ok (m : DeviceModel) :
    validate_device_info_dyn (encodeConfig m) = .ok (validate_device_info m.device) := by
  rcases m with ⟨⟨h, ip, dt⟩, ifs, o, a⟩
  cases h <;> cases ip <;> cases dt <;>
    simp [validate_device_info_dyn, validate_device_info, encodeConfig, encodeDevice,
      encodeOptStr, pyGet, pySub, pyTruthy, pyStr, truthy, validate_ip_address_dyn,
      bind, Except.bind, pure, Except.pure] <;>
    split_ifs <;> simp_all

lemma interface_findings_dyn_ok (idx : Nat) (i : InterfaceSpec) :
    interface_findings_dyn idx (encodeInterface i) = .ok (interface_findings idx i) := by
  rcases i with ⟨n, d, st, ip, mk⟩
  cases n <;> cases d <;> cases st <;> cases ip <;> cases mk <;>
    simp [interface_findings_dyn, interface_findings, encodeInterface, encodeOptStr,
      pyGet, pySub, pyContains, pyTruthy, pyStr, truthy, pyOptStr,
      validate_ip_address_dyn, validate_subnet_mask_dyn, validate_subnet_mask,
      pyRepr_natCast, bind, Except.bind, pure, Except.pure]

lemma interfaces_check_dyn_ok (idx : Nat) (ifs : List InterfaceSpec) :
    interfaces_check_dyn idx (ifs.map encodeInterface) = .ok (interfaces_check idx ifs) := by
  induction ifs generalizing idx with
  | nil => rfl
  | cons i rest ih =>
    simp only [List.map_cons, interfaces_check_dyn, interface_findings_dyn_ok idx i,
      ih (idx + 1), interfaces_check]
    rfl

lemma interfaces_check_dyn_ok_cons (idx : Nat) (i : InterfaceSpec)
    (rest : List InterfaceSpec) :
    interfaces_check_dyn idx (encodeInterface i :: rest.map encodeInterface) =
      .ok (interfaces_check idx (i :: rest)) := by
  have h := interfaces_check_dyn_ok idx (i :: rest)
  simpa using h

lemma validate_interfaces_dyn_ok (m : DeviceModel) :
    validate_interfaces_dyn (encodeConfig m) = .ok (validate_interfaces m.interfaces) := by
  rcases m with ⟨d, ifs0, o, a⟩
  have hget : pyGet (encodeConfig ⟨d, ifs0, o, a⟩) "interfaces" (.list []) =
      .ok (.list (ifs0.map encodeInterface)) := rfl
  unfold validate_interfaces_dyn
  rw [hget]
  rcases ifs0 with _ | ⟨i, rest⟩
  · rfl
  · simp [validate_interfaces, pyTruthy, pyIter, bind, Except.bind, pure, Except.pure,
      interfaces_check_dyn_ok_cons 0 i rest]

lemma network_findings_dyn_ok (idx : Nat) (e : NetworkEntry) :
    network_findings_dyn idx (encodeNetwork e) = .ok (network_findings idx e) := by
  rcases e with ⟨n, w, ar⟩
  cases n <;> cases w <;> cases ar <;>
    simp [network_findings_dyn, network_findings, encodeNetwork, encodeOptStr,
      pyGet, pyIsNone, pyTruthy, validate_ip_address_dyn,
      bind, Except.bind, pure, Except.pure]

lemma networks_check_dyn_ok (idx : Nat) (es : List NetworkEntry) :
    networks_check_dyn idx (es.map encodeNetwork) = .ok (networks_check idx es) := by
  induction es generalizing idx with
  | nil => rfl
  | cons e rest ih =>
    simp only [List.map_cons, networks_check_dyn, network_findings_dyn_ok idx e,
      ih (idx + 1), networks_check]
    rfl

lemma networks_check_dyn_ok_cons (idx : Nat) (e : NetworkEntry)
    (rest : List NetworkEntry) :
    networks_check_dyn idx (encodeNetwork e :: rest.map encodeNetwork) =
      .ok (networks_check idx (e :: rest)) := by
  have h := networks_check_dyn_ok idx (e :: rest)
  simpa using h

lemma validate_routing_dyn_ok (m : DeviceModel) :
    validate_routing_dyn (encodeConfig m) = .ok (validate_routing m.ospf) := by
  rcases m with ⟨d, ifs, ⟨en, pid, nets⟩, a⟩
  have hget : pyGet (encodeConfig ⟨d, ifs, ⟨en, pid, nets⟩, a⟩) "routing" (.dict []) =
      .ok (.dict [("ospf", encodeOspf ⟨en, pid, nets⟩)]) := rfl
  unfold validate_routing_dyn
  rw [hget]
  cases en <;> cases pid <;> rcases nets with _ | ⟨e, rest⟩ <;>
    simp [validate_routing, encodeOspf, encodeOptStr, pyGet, pyIter, pyTruthy,
      truthy, bind, Except.bind, pure, Except.pure, networks_check,
      networks_check_dyn_ok_cons] <;>
    simp [networks_check_dyn]

lemma pyRepr_none : pyRepr PyVal.none = "None" := rfl

lemma rule_findings_dyn_ok (label : String) (r : AclRule) :
    rule_findings_dyn label (encodeRule r) = .ok (rule_findings label r) := by
  rcases r with ⟨ac, pr, so, sw, de, dp⟩
  cases ac <;> cases pr <;> cases so <;> cases sw <;> cases de <;> cases dp <;>
    simp [rule_findings_dyn, rule_findings, encodeRule, encodeOptStr, pyGet,
      pyEqS, pyTruthy, pyStr, truthy, pyOptStr,
      bind, Except.bind, pure, Except.pure]

lemma rules_check_dyn_ok (label : String) (rs : List AclRule) :
    rules_check_dyn label (rs.map encodeRule) = .ok (rules_check label rs) := by
  induction rs with
  | nil => rfl
  | cons r rest ih =>
    simp only [List.map_cons, rules_check_dyn, rule_findings_dyn_ok label r, ih,
      rules_check]
    rfl

lemma rules_check_dyn_ok_cons (label : String) (r : AclRule) (rest : List AclRule) :
    rules_check_dyn label (encodeRule r :: rest.map encodeRule) =
      .ok (rules_check label (r :: rest)) := by
  have h := rules_check_dyn_ok label (r :: rest)
  simpa using h

lemma acl_findings_dyn_ok (acl : AclSpec) :
    acl_findings_dyn (encodeAcl acl) = .ok (acl_findings acl) := by
  rcases acl with ⟨nm, ty, rules⟩
  cases nm <;> cases ty <;>
    simp [acl_findings_dyn, acl_findings, encodeAcl, encodeOptStr, pyGet, pyIter,
      pyEqS, pyTruthy, pyStr, truthy, pyOptStr, rules_check_dyn_ok, pyRepr_none,
      bind, Except.bind, pure, Except.pure]

lemma acls_check_dyn_ok (acls : List AclSpec) :
    acls_check_dyn (acls.map encodeAcl) = .ok (acls_check acls) := by
  induction acls with
  | nil => rfl
  | cons acl rest ih =>
    simp only [List.map_cons, acls_check_dyn, acl_findings_dyn_ok acl, ih, acls_check]
    rfl

lemma validate_security_dyn_ok (m : DeviceModel) :
    validate_security_dyn (encodeConfig m) = .ok (validate_security m.access_lists) := by
  have hget : pyGet (encodeConfig m) "security" (.dict []) =
      .ok (.dict [("access_lists", .list (m.access_lists.map encodeAcl))]) := rfl
  unfold validate_security_dyn
  rw [hget]
  simp [pyGet, pyIter, acls_check_dyn_ok, validate_security,
    bind, Except.bind, pure, Except.pure]

lemma validate_all_dyn_ok (m : DeviceModel) :
    validate_all_dyn (encodeConfig m) = .ok (validate_all m) := by
  unfold validate_all_dyn validate_all
  rw [validate_device_info_dyn_ok m]
  simp only [bind, Except.bind]
  rw [validate_interfaces_dyn_ok m]
  rw [validate_routing_dyn_ok m]
  rw [validate_security_dyn_ok m]
  rfl

lemma generate_hostname_dyn_ok (m : DeviceModel) :
    generate_hostname_dyn (encodeConfig m) = .ok (generate_hostname m) := by
  rcases m with ⟨⟨h, ip, dt⟩, ifs, o, a⟩
  cases h <;> cases ip <;> cases dt <;>
    simp [generate_hostname_dyn, generate_hostname, encodeConfig, encodeDevice,
      encodeOptStr, pyGet, pyStr, bind, Except.bind, pure, Except.pure]

lemma interface_block_dyn_ok (i : InterfaceSpec) :
    interface_block_dyn (encodeInterface i) = .ok (
      if !truthy i.name then []
      else ("interface " ++ i.name.getD "") ::
        (" description " ++ i.description.getD ("Interface " ++ i.name.getD "")) ::
        (if i.status.getD "down" == "up" then " no shutdown" else " shutdown") ::
        ((match i.ip_address, i.subnet_mask with
          | some ip, some mask => [" ip address " ++ ip ++ " " ++ mask]
          | _, _ => []) ++ ["!"])) := by
  rcases i with ⟨n, d, st, ip, mk⟩
  cases n <;> cases d <;> cases st <;> cases ip <;> cases mk <;>
    simp [interface_block_dyn, encodeInterface, encodeOptStr, pyGet, pySub,
      pyContains, pyEqS, pyTruthy, pyStr, truthy,
      bind, Except.bind, pure, Except.pure] <;>
    split_ifs <;> rfl

lemma interfaces_gen_dyn_ok (ifs : List InterfaceSpec) :
    interfaces_gen_dyn (ifs.map encodeInterface) = .ok (interfaces_gen ifs) := by
  induction ifs with
  | nil => rfl
  | cons i rest ih =>
    simp only [List.map_cons, interfaces_gen_dyn, interface_block_dyn_ok i, ih]
    rcases ht : truthy i.name with _ | _ <;>
      simp [interfaces_gen, ht, bind, Except.bind, pure, Except.pure]

lemma generate_interfaces_dyn_ok (m : DeviceModel) :
    generate_interfaces_dyn (encodeConfig m) = .ok (generate_interfaces m) := by
  have hget : pyGet (encodeConfig m) "interfaces" (.list []) =
      .ok (.list (m.interfaces.map encodeInterface)) := rfl
  unfold generate_interfaces_dyn
  rw [hget]
  simp [pyIter, interfaces_gen_dyn_ok, generate_interfaces,
    bind, Except.bind, pure, Except.pure]

lemma pyRepr_int (n : Int) : pyRepr (PyVal.int n) = toString n := rfl

lemma network_line_dyn_ok (e : NetworkEntry) :
    network_line_dyn (encodeNetwork e) = .ok (
      if truthy e.network && truthy e.wildcard && e.area.isSome then
        [" network " ++ e.network.getD "" ++ " " ++ e.wildcard.getD "" ++
         " area " ++ toString (e.area.getD 0)]
      else []) := by
  rcases e with ⟨n, w, ar⟩
  cases n <;> cases w <;> cases ar <;>
    simp [network_line_dyn, encodeNetwork, encodeOptStr, pyGet, pyIsNone,
      pyTruthy, pyStr, truthy, pyRepr_int, bind, Except.bind, pure, Except.pure] <;>
    split_ifs <;> rfl

lemma networks_gen_dyn_ok (es : List NetworkEntry) :
    networks_gen_dyn (es.map encodeNetwork) = .ok (networks_gen es) := by
  induction es with
  | nil => rfl
  | cons e rest ih =>
    simp only [List.map_cons, networks_gen_dyn, network_line_dyn_ok e, ih]
    rcases hc : truthy e.network && truthy e.wildcard && e.area.isSome with _ | _ <;>
      simp [networks_gen, hc, bind, Except.bind, pure, Except.pure]

lemma generate_ospf_dyn_ok (m : DeviceModel) :
    generate_ospf_dyn (encodeConfig m) = .ok (generate_ospf m) := by
  rcases m with ⟨d, ifs, ⟨en, pid, nets⟩, a⟩
  have hget : pyGet (encodeConfig ⟨d, ifs, ⟨en, pid, nets⟩, a⟩) "routing" (.dict []) =
      .ok (.dict [("ospf", encodeOspf ⟨en, pid, nets⟩)]) := rfl
  unfold generate_ospf_dyn
  rw [hget]
  cases en <;> cases pid <;>
    simp [generate_ospf, ospf_commands, encodeOspf, encodeOptStr, pyGet, pyIter,
      pyTruthy, pyStr, truthy, networks_gen_dyn_ok,
      bind, Except.bind, pure, Except.pure] <;>
    split_ifs <;> simp_all [networks_gen_dyn]

lemma rule_line_dyn_ok (aclName : String) (t : String) (r : AclRule) :
    rule_line_dyn aclName (.str t) (encodeRule r) = .ok (
      if truthy r.action && truthy r.protocol && truthy r.source then
        (if t == "extended" then
          ["access-list " ++ aclName ++ " " ++ r.action.getD "" ++ " " ++
           r.protocol.getD "" ++ " " ++ r.source.getD "" ++ " " ++
           r.source_wildcard.getD "0.0.0.0" ++ " " ++ r.destination.getD "any" ++
           (if truthy r.destination_port then " eq " ++ r.destination_port.getD "" else "")]
         else [])
      else []) := by
  rcases r with ⟨ac, pr, so, sw, de, dp⟩
  cases ac <;> cases pr <;> cases so <;> cases sw <;> cases de <;> cases dp <;>
    simp [rule_line_dyn, encodeRule, encodeOptStr, pyGet, pyEqS, pyTruthy, pyStr,
      truthy, bind, Except.bind, pure, Except.pure] <;>
    split_ifs <;> simp_all

lemma rules_gen_dyn_ok (aclName : String) (t : String) (rs : List AclRule) :
    rules_gen_dyn aclName (.str t) (rs.map encodeRule) = .ok (rules_gen aclName t rs) := by
  induction rs with
  | nil => rfl
  | cons r rest ih =>
    simp only [List.map_cons, rules_gen_dyn, rule_line_dyn_ok aclName t r, ih]
    rcases hc : truthy r.action && truthy r.protocol && truthy r.source with _ | _ <;>
      rcases ht : t == "extended" with _ | _ <;>
      simp [rules_gen, hc, ht, bind, Except.bind, pure, Except.pure]

lemma acl_block_dyn_ok (acl : AclSpec) :
    acl_block_dyn (encodeAcl acl) = .ok (
      if !truthy acl.name || !truthy acl.type then []
      else rules_gen (acl.name.getD "") (acl.type.getD "") acl.rules) := by
  rcases acl with ⟨nm, ty, rules⟩
  cases nm <;> cases ty <;>
    simp [acl_block_dyn, encodeAcl, encodeOptStr, pyGet, pyIter, pyTruthy, pyStr,
      truthy, rules_gen_dyn_ok, bind, Except.bind, pure, Except.pure] <;>
    split_ifs <;> simp_all [rules_gen_dyn_ok]

lemma acls_gen_dyn_ok (acls : List AclSpec) :
    acls_gen_dyn (acls.map encodeAcl) = .ok (acls_gen acls) := by
  induction acls with
  | nil => rfl
  | cons acl rest ih =>
    simp only [List.map_cons, acls_gen_dyn, acl_block_dyn_ok acl, ih]
    rcases hn : truthy acl.name with _ | _ <;> rcases ht : truthy acl.type with _ | _ <;>
      simp [acls_gen, hn, ht, bind, Except.bind, pure, Except.pure]

lemma generate_acl_dyn_ok (m : DeviceModel) :
    generate_acl_dyn (encodeConfig m) = .ok (generate_acl m) := by
  have hget : pyGet (encodeConfig m) "security" (.dict []) =
      .ok (.dict [("access_lists", .list (m.access_lists.map encodeAcl))]) := rfl
  unfold generate_acl_dyn
  rw [hget]
  simp [pyGet, pyIter, acls_gen_dyn_ok, generate_acl,
    bind, Except.bind, pure, Except.pure]

lemma generate_full_config_dyn_ok (m : DeviceModel) :
    generate_full_config_dyn (encodeConfig m) = .ok (generate_full_config m) := by
  have hdev : pyGet (encodeConfig m) "device" (.dict []) = .ok (encodeDevice m.device) := rfl
  have hh : ∀ d, pyGet (encodeDevice m.device) "hostname" (.str d) =
      .ok (match m.device.hostname with
           | some s => .str s
           | _ => .str d) := by
    intro d
    rcases m with ⟨⟨h, ip, dt⟩, ifs, o, a⟩
    cases h <;> cases ip <;> cases dt <;> rfl
  simp only [generate_full_config_dyn, hdev, hh "Unknown-Device",
    generate_hostname_dyn_ok m, generate_interfaces_dyn_ok m,
    generate_ospf_dyn_ok m, generate_acl_dyn_ok m,
    bind, Except.bind, pure, Except.pure]
  unfold generate_full_config
  rcases m.device.hostname with _ | s <;> simp [pyStr, pyRepr]

/-! ## Claim C6 -/

/-- C6 (amended): for every model whose present field values are strings in
the expected container shapes (i.e. every encoding of a typed model),
running all validation checks raises no exception and returns exactly the
typed result as data; and the checks do not short-circuit — the error and
warning lists are the concatenations, in call order, of what each of the
four checks contributes, so several independent defects all surface in one
run.  On raw documents with non-string field values the checks can raise
(see the counterexample). -/
theorem C6_theorem (m : DeviceModel) :
    validate_all_dyn (encodeConfig m) = .ok (validate_all m) ∧
    (validate_all m).1 =
      (validate_device_info m.device).1 ++ (validate_interfaces m.interfaces).1 ++
      (validate_routing m.ospf).1 ++ (validate_security m.access_lists).1 ∧
    (validate_all m).2 =
      (validate_device_info m.device).2 ++ (validate_interfaces m.interfaces).2 ++
      (validate_routing m.ospf).2 ++ (validate_security m.access_lists).2 :=
  ⟨validate_all_dyn_ok m, rfl, rfl⟩

/-- C6 is false as stated: a structurally loadable document whose device
`ip_address` is the integer 123 makes `re.match` raise `TypeError` inside
`validate_ip_address`, so running all validation checks raises instead of
returning findings as data. -/
theorem C6_counterexample :
    validate_all_dyn (PyVal.dict [("device", PyVal.dict
      [("hostname", PyVal.str "r1"), ("ip_address", PyVal.int 123)])]) =
      .error "TypeError" := by
  rfl

/-! ## Claim C8 -/

/-- C8 (amended): full-config generation is total on every model whose
present field values are strings in the expected container shapes (i.e. on
every encoding of a typed model): it returns exactly the typed generator's
CLI text and never fails, skipping incomplete entries.  On degenerate
documents the loader accepts (empty document → `None`, or a top-level list)
it raises instead (see the counterexample). -/
theorem C8_theorem (m : DeviceModel) :
    generate_full_config_dyn (encodeConfig m) = .ok (generate_full_config m) :=
  generate_full_config_dyn_ok m

/-- C8 is false as stated: an empty YAML document loads as `None` and a
`[]` document loads as a list; both are accepted by the loader, and
`generate_full_config` raises `AttributeError` on both (`.get` on a
non-dict). -/
theorem C8_counterexample :
    generate_full_config_dyn PyVal.none = .error "AttributeError" ∧
    generate_full_config_dyn (PyVal.list []) = .error "AttributeError" := by
  exact ⟨rfl, rfl⟩
